import Mathlib

/-!
Verification development for the BoardSync reconciliation backend.

The definitions below are a shallow embedding of the Go sources
(`backend/services.go`, `backend/types.go`, and the HTTP handler for the
suppression store).  Pure functions are translated directly; functions that
perform HTTP calls are parameterised by the transport outcome (the response
the remote system would give), and the mutable suppression maps become
explicit state.  Go `map[string]V` values are modelled as association lists
where insertion prepends, so that lookup returns the most recent write,
exactly like Go assignment semantics; `map[string]bool` sets become lists of
keys (the code only ever stores `true`).  Go string primitives
(`strings.Contains`, `strings.Split`, `strings.Trim`, `strings.TrimSpace`,
`strings.ToLower`, `strings.EqualFold`, `strings.Join`) are implemented on
character lists; case mapping covers the ASCII range exercised by the data.
-/

/-- Characters trimmed by `strings.TrimSpace` (ASCII range of `unicode.IsSpace`). -/
def isSpaceChar (c : Char) : Bool :=
  c == ' ' || c == '\t' || c == '\n' || c == '\r' || c == Char.ofNat 11 || c == Char.ofNat 12

/-- `listIsPrefixOf p s` is true when `p` is a leading segment of `s`. -/
def listIsPrefixOf : List Char → List Char → Bool
  | [], _ => true
  | _ :: _, [] => false
  | a :: as, b :: bs => a == b && listIsPrefixOf as bs

/-- `listContainsSeg s p` is true when `p` occurs contiguously inside `s`
(`strings.Contains` on character lists). -/
def listContainsSeg : List Char → List Char → Bool
  | [], p => listIsPrefixOf p []
  | c :: rest, p => listIsPrefixOf p (c :: rest) || listContainsSeg rest p

/-- `strings.Contains`. -/
def goContains (s sub : String) : Bool :=
  listContainsSeg s.toList sub.toList

/-- `strings.ToLower` (ASCII case mapping). -/
def goToLower (s : String) : String :=
  String.mk (s.toList.map Char.toLower)

/-- `strings.EqualFold` (ASCII simple case folding). -/
def goEqualFold (a b : String) : Bool :=
  goToLower a == goToLower b

/-- Worker for `strings.Split`: scans the subject, emitting a segment each time
the separator occurs; after a match the remaining separator characters are
consumed via the skip counter, so occurrences never overlap. -/
def splitOnSegAux (sep : List Char) : List Char → Nat → List Char → List (List Char)
  | [], _, acc => [acc.reverse]
  | _ :: rest, skip + 1, acc => splitOnSegAux sep rest skip acc
  | c :: rest, 0, acc =>
    if listIsPrefixOf sep (c :: rest) then
      acc.reverse :: splitOnSegAux sep rest (sep.length - 1) []
    else
      splitOnSegAux sep rest 0 (c :: acc)

/-- `strings.Split` for a non-empty separator (every separator in the sources
is non-empty). -/
def goSplit (s sep : String) : List String :=
  (splitOnSegAux sep.toList s.toList 0 []).map String.mk

/-- Drop leading characters belonging to the cutset. -/
def trimLeftIn (cut : List Char) : List Char → List Char
  | [] => []
  | c :: rest => if cut.contains c then trimLeftIn cut rest else c :: rest

/-- `strings.Trim`: removes leading and trailing characters of the cutset. -/
def goTrim (s cutset : String) : String :=
  String.mk ((trimLeftIn cutset.toList ((trimLeftIn cutset.toList s.toList).reverse)).reverse)

/-- Drop leading whitespace characters. -/
def trimLeftSpace : List Char → List Char
  | [] => []
  | c :: rest => if isSpaceChar c then trimLeftSpace rest else c :: rest

/-- `strings.TrimSpace`. -/
def goTrimSpace (s : String) : String :=
  String.mk ((trimLeftSpace ((trimLeftSpace s.toList).reverse)).reverse)

/-- `strings.Join`. -/
def goJoin (sep : String) : List String → String
  | [] => ""
  | s :: rest => rest.foldl (fun acc x => acc ++ sep ++ x) s

/-! ## Data model (`types.go`) -/

/-- One entry of `AsanaTask.Memberships`. -/
structure AsanaMembership where
  sectionGid : String
  sectionName : String
deriving DecidableEq

/-- One entry of `AsanaTask.Tags`. -/
structure AsanaTag where
  tagGid : String
  tagName : String
deriving DecidableEq

/-- `AsanaTask` (the fields read by the analysed functions). -/
structure AsanaTask where
  gid : String
  name : String
  notes : String
  memberships : List AsanaMembership
  tags : List AsanaTag
deriving DecidableEq

/-- A decoded YouTrack custom-field value: a JSON object carrying optional
`name` / `localizedName` string entries, a bare string, JSON null, or any
other shape. -/
inductive FieldValue where
  | obj (objName : Option String) (localizedName : Option String)
  | str (s : String)
  | null
  | other
deriving DecidableEq

/-- One entry of `YouTrackIssue.CustomFields`. -/
structure CustomField where
  fieldName : String
  value : FieldValue
deriving DecidableEq

/-- `YouTrackIssue` (the fields read by the analysed functions). -/
structure YouTrackIssue where
  id : String
  summary : String
  description : String
  customFields : List CustomField
  projectShortName : String
deriving DecidableEq

/-- `MatchedTicket`. -/
structure MatchedTicket where
  asanaTask : AsanaTask
  youTrackIssue : YouTrackIssue
  status : String
  asanaTags : List String
  youTrackSubsystem : String
  tagMismatch : Bool
deriving DecidableEq

/-- `MismatchedTicket`. -/
structure MismatchedTicket where
  asanaTask : AsanaTask
  youTrackIssue : YouTrackIssue
  asanaStatus : String
  youTrackStatus : String
  asanaTags : List String
  youTrackSubsystem : String
  tagMismatch : Bool
deriving DecidableEq

/-- `FindingsAlert`. -/
structure FindingsAlert where
  asanaTask : AsanaTask
  youTrackIssue : YouTrackIssue
  youTrackStatus : String
  alertMessage : String
deriving DecidableEq

/-- `TicketAnalysis`. -/
structure TicketAnalysis where
  selectedColumn : String
  matched : List MatchedTicket
  mismatched : List MismatchedTicket
  missingYouTrack : List AsanaTask
  findingsTickets : List AsanaTask
  findingsAlerts : List FindingsAlert
  readyForStage : List AsanaTask
  blockedTickets : List MatchedTicket
  orphanedYouTrack : List YouTrackIssue
  ignored : List String
deriving DecidableEq

/-- `syncableColumns` (`types.go`). -/
def syncableColumns : List String := ["backlog", "in progress", "dev", "stage", "blocked"]

/-- `defaultTagMapping` (`types.go`), as an association list; the Go map has
pairwise distinct keys so lookup order is immaterial. -/
def defaultTagMapping : List (String × String) :=
  [("Mobile", "mobile"), ("Web", "web"), ("API", "backend"), ("Frontend", "frontend"),
   ("Backend", "backend"), ("iOS", "mobile"), ("Android", "mobile"), ("Desktop", "desktop"),
   ("Database", "backend"), ("UI/UX", "frontend"), ("DevOps", "infrastructure"),
   ("QA", "testing"), ("Testing", "testing"), ("Security", "security"),
   ("Performance", "performance")]

/-! ## Go map model -/

/-- Association-list lookup (`m[k]` read on a Go map). -/
def mapGet? {α : Type} : List (String × α) → String → Option α
  | [], _ => none
  | (k2, v) :: rest, k => if k == k2 then some v else mapGet? rest k

/-- Go map assignment `m[k] = v`: prepending makes `mapGet?` return the most
recent write, matching Go's overwrite semantics. -/
def mapSet {α : Type} (m : List (String × α)) (k : String) (v : α) : List (String × α) :=
  (k, v) :: m

/-- `m[k] = true` on a `map[string]bool` used as a set. -/
def setInsert (m : List String) (k : String) : List String :=
  if m.contains k then m else k :: m

/-- `delete(m, k)` on a `map[string]bool` used as a set. -/
def setDelete (m : List String) (k : String) : List String :=
  m.filter (fun x => x ≠ k)

/-! ## Helper functions (`services.go`) -/

/-- `getAsanaTags`: tag names, skipping empty ones. -/
def getAsanaTags (task : AsanaTask) : List String :=
  (task.tags.filter (fun t => t.tagName ≠ "")).map (fun t => t.tagName)

/-- `getSectionName`: lower-cased first membership section, `"No Section"`
when there is none. -/
def getSectionName (task : AsanaTask) : String :=
  match task.memberships with
  | [] => "No Section"
  | m :: _ => goToLower m.sectionName

/-- `mapAsanaStateToYouTrack` (`services.go:1221`): ordered first-match-wins
cascade over the lower-cased section name. -/
def mapAsanaStateToYouTrack (task : AsanaTask) : String :=
  match task.memberships with
  | [] => "Backlog"
  | m :: _ =>
    let sectionName := goToLower m.sectionName
    if goContains sectionName "backlog" then "Backlog"
    else if goContains sectionName "in progress" then "In Progress"
    else if goContains sectionName "dev" && !goContains sectionName "ready" then "DEV"
    else if goContains sectionName "stage" && !goContains sectionName "ready" then "STAGE"
    else if goContains sectionName "blocked" then "Blocked"
    else if goContains sectionName "findings" then "FINDINGS_NO_SYNC"
    else if goContains sectionName "ready for stage" then "READY_FOR_STAGE_NO_SYNC"
    else "Backlog"

/-- `mapTagToSubsystem` (`services.go:1179`): exact lookup, then lookup of the
lower-cased tag, then the lower-cased tag itself. -/
def mapTagToSubsystem (asanaTag : String) : String :=
  match mapGet? defaultTagMapping asanaTag with
  | some subsystem => subsystem
  | none =>
    match mapGet? defaultTagMapping (goToLower asanaTag) with
    | some subsystem => subsystem
    | none => goToLower asanaTag

/-- `checkTagMismatch` (`services.go:1195`). -/
def checkTagMismatch (asanaTags : List String) (youtrackSubsystem : String) : Bool :=
  if asanaTags.isEmpty && youtrackSubsystem == "" then false
  else if asanaTags.isEmpty || youtrackSubsystem == "" then true
  else !asanaTags.any (fun tag => goEqualFold (mapTagToSubsystem tag) youtrackSubsystem)

/-- Scan of the custom fields performed by `getYouTrackStatus`: the first
`State` field with a usable value decides; unusable ones fall through. -/
def statusFromFields : List CustomField → String
  | [] => "Unknown"
  | f :: rest =>
    if f.fieldName == "State" then
      match f.value with
      | FieldValue.obj objName localizedName =>
        match localizedName with
        | some ln =>
          if ln ≠ "" then ln
          else
            match objName with
            | some n => if n ≠ "" then n else statusFromFields rest
            | none => statusFromFields rest
        | none =>
          match objName with
          | some n => if n ≠ "" then n else statusFromFields rest
          | none => statusFromFields rest
      | FieldValue.str s => if s ≠ "" then s else statusFromFields rest
      | FieldValue.null => "No State"
      | FieldValue.other => statusFromFields rest
    else statusFromFields rest

/-- `getYouTrackStatus` (`services.go:1249`). -/
def getYouTrackStatus (issue : YouTrackIssue) : String :=
  statusFromFields issue.customFields

/-- Loop body of `extractAsanaID`: first line containing the marker wins. -/
def extractFromLines : List String → String
  | [] => ""
  | line :: rest =>
    if goContains line "Asana ID:" then
      match goSplit line "Asana ID:" with
      | _ :: p1 :: _ => goTrimSpace (goTrim p1 "]")
      | _ => extractFromLines rest
    else extractFromLines rest

/-- `extractAsanaID` (`services.go:1274`). -/
def extractAsanaID (issue : YouTrackIssue) : String :=
  if goContains issue.description "Asana ID:" then
    extractFromLines (goSplit issue.description "\n")
  else ""

/-- `isSyncableColumn` (`services.go:1296`). -/
def isSyncableColumn (sectionName : String) : Bool :=
  syncableColumns.any (fun col => goContains (goToLower sectionName) (goToLower col))

/-- `isActiveYouTrackStatus` (`services.go:1306`). -/
def isActiveYouTrackStatus (status : String) : Bool :=
  ["Backlog", "In Progress", "DEV", "STAGE", "Blocked"].any
    (fun activeStatus => goEqualFold status activeStatus)

/-- Per-task predicate of `filterAsanaTasksByColumns`: tasks without
memberships are dropped; otherwise the lower-cased section name must contain
one of the selected columns. -/
def taskMatchesColumns (selectedColumns : List String) (task : AsanaTask) : Bool :=
  match task.memberships with
  | [] => false
  | m :: _ =>
    selectedColumns.any (fun col => goContains (goToLower m.sectionName) (goToLower col))

/-- `filterAsanaTasksByColumns` (`services.go:1316`). -/
def filterAsanaTasksByColumns (tasks : List AsanaTask) (selectedColumns : List String) :
    List AsanaTask :=
  tasks.filter (taskMatchesColumns selectedColumns)

/-- `isIgnored` (`services.go:1332`); the two global sets are passed
explicitly. -/
def isIgnored (tempIgnored foreverIgnored : List String) (ticketID : String) : Bool :=
  tempIgnored.contains ticketID || foreverIgnored.contains ticketID

/-! ## Reconciliation engine (`performTicketAnalysis`, `services.go:686`) -/

/-- `youTrackMap` construction: index issues by extracted Asana id, skipping
empty keys; Go assignment overwrites, so a repeated key keeps the latest
issue. -/
def buildYouTrackMap (youTrackIssues : List YouTrackIssue) : List (String × YouTrackIssue) :=
  youTrackIssues.foldl
    (fun m issue =>
      let asanaID := extractAsanaID issue
      if asanaID ≠ "" then mapSet m asanaID issue else m)
    []

/-- `asanaMap` construction: all filtered tasks keyed by gid. -/
def buildAsanaMap (asanaTasks : List AsanaTask) : List (String × AsanaTask) :=
  asanaTasks.foldl (fun m task => mapSet m task.gid task) []

/-- The alert text built in the Findings branch. -/
def findingsAlertMessage (task : AsanaTask) (youtrackStatus : String) : String :=
  "HIGH ALERT: '" ++ task.name ++ "' is in Findings (Asana) but still active in YouTrack (" ++
    youtrackStatus ++ ")"

/-- Per-task body of the classification loop of `performTicketAnalysis`
(`services.go:730`). -/
def classifyTask (youTrackMap : List (String × YouTrackIssue))
    (tempIgnored foreverIgnored : List String) (analysis : TicketAnalysis)
    (task : AsanaTask) : TicketAnalysis :=
  if isIgnored tempIgnored foreverIgnored task.gid then analysis
  else
    let sectionName := getSectionName task
    let asanaTags := getAsanaTags task
    if goContains sectionName "findings" then
      let analysis1 := { analysis with findingsTickets := analysis.findingsTickets ++ [task] }
      match mapGet? youTrackMap task.gid with
      | some existingIssue =>
        let youtrackStatus := getYouTrackStatus existingIssue
        if isActiveYouTrackStatus youtrackStatus then
          { analysis1 with
            findingsAlerts := analysis1.findingsAlerts ++
              [{ asanaTask := task, youTrackIssue := existingIssue,
                 youTrackStatus := youtrackStatus,
                 alertMessage := findingsAlertMessage task youtrackStatus }] }
        else analysis1
      | none => analysis1
    else if goContains sectionName "ready for stage" then
      { analysis with readyForStage := analysis.readyForStage ++ [task] }
    else
      match mapGet? youTrackMap task.gid with
      | some existingIssue =>
        let asanaStatus := mapAsanaStateToYouTrack task
        let youtrackStatus := getYouTrackStatus existingIssue
        if goContains sectionName "blocked" then
          { analysis with
            blockedTickets := analysis.blockedTickets ++
              [{ asanaTask := task, youTrackIssue := existingIssue, status := asanaStatus,
                 asanaTags := asanaTags, youTrackSubsystem := "", tagMismatch := false }] }
        else if asanaStatus == youtrackStatus then
          { analysis with
            matched := analysis.matched ++
              [{ asanaTask := task, youTrackIssue := existingIssue, status := asanaStatus,
                 asanaTags := asanaTags, youTrackSubsystem := "", tagMismatch := false }] }
        else
          { analysis with
            mismatched := analysis.mismatched ++
              [{ asanaTask := task, youTrackIssue := existingIssue, asanaStatus := asanaStatus,
                 youTrackStatus := youtrackStatus, asanaTags := asanaTags,
                 youTrackSubsystem := "", tagMismatch := false }] }
      | none =>
        if isSyncableColumn sectionName then
          { analysis with missingYouTrack := analysis.missingYouTrack ++ [task] }
        else analysis

/-- Per-issue body of the orphan pass of `performTicketAnalysis`
(`services.go:807`). -/
def orphanStep (asanaMap : List (String × AsanaTask)) (analysis : TicketAnalysis)
    (issue : YouTrackIssue) : TicketAnalysis :=
  let asanaID := extractAsanaID issue
  if asanaID ≠ "" then
    match mapGet? asanaMap asanaID with
    | some _ => analysis
    | none => { analysis with orphanedYouTrack := analysis.orphanedYouTrack ++ [issue] }
  else analysis

/-- `performTicketAnalysis` (`services.go:686`), given the two snapshots in
place of the network fetches (a fetch failure aborts before this logic runs)
and the two suppression sets in place of the globals. -/
def performTicketAnalysis (allAsanaTasks : List AsanaTask)
    (youTrackIssues : List YouTrackIssue) (selectedColumns : List String)
    (tempIgnored foreverIgnored : List String) : TicketAnalysis :=
  let asanaTasks := filterAsanaTasksByColumns allAsanaTasks selectedColumns
  let youTrackMap := buildYouTrackMap youTrackIssues
  let asanaMap := buildAsanaMap asanaTasks
  let analysis0 : TicketAnalysis :=
    { selectedColumn := goJoin ", " selectedColumns
      matched := [], mismatched := [], missingYouTrack := []
      findingsTickets := [], findingsAlerts := [], readyForStage := []
      blockedTickets := [], orphanedYouTrack := []
      ignored := foreverIgnored }
  let analysis1 := asanaTasks.foldl (classifyTask youTrackMap tempIgnored foreverIgnored) analysis0
  youTrackIssues.foldl (orphanStep asanaMap) analysis1

/-! ## Spec-side state cascade (for the refinement claim about the mapper) -/

/-- Canonical states named by the specification's rule list. -/
inductive CanonicalState where
  | backlog
  | inProgress
  | dev
  | stage
  | blocked
  | findings
  | readyForStage
deriving DecidableEq

/-- The string the implementation uses for each canonical state. -/
def canonicalStateName : CanonicalState → String
  | CanonicalState.backlog => "Backlog"
  | CanonicalState.inProgress => "In Progress"
  | CanonicalState.dev => "DEV"
  | CanonicalState.stage => "STAGE"
  | CanonicalState.blocked => "Blocked"
  | CanonicalState.findings => "FINDINGS_NO_SYNC"
  | CanonicalState.readyForStage => "READY_FOR_STAGE_NO_SYNC"

/-- Case-insensitive substring test, as the specification words it. -/
def containsCI (s pat : String) : Bool :=
  goContains (goToLower s) (goToLower pat)

/-- Modelled from the spec: the ordered first-match-wins rule list of
`MapLabelToState` ("backlog", "in progress", "dev" and not "ready", "stage"
and not "ready", "blocked", "findings", "ready for stage", default Backlog),
all case-insensitive substring matches on the group label. -/
def specMapLabelToState (groupLabel : String) : CanonicalState :=
  if containsCI groupLabel "backlog" then CanonicalState.backlog
  else if containsCI groupLabel "in progress" then CanonicalState.inProgress
  else if containsCI groupLabel "dev" && !containsCI groupLabel "ready" then CanonicalState.dev
  else if containsCI groupLabel "stage" && !containsCI groupLabel "ready" then CanonicalState.stage
  else if containsCI groupLabel "blocked" then CanonicalState.blocked
  else if containsCI groupLabel "findings" then CanonicalState.findings
  else if containsCI groupLabel "ready for stage" then CanonicalState.readyForStage
  else CanonicalState.backlog

/-- The group label a task exposes to the cascade: the first membership's raw
section name, or the empty string when the record carries no group label. -/
def rawGroupLabel (task : AsanaTask) : String :=
  match task.memberships with
  | [] => ""
  | m :: _ => m.sectionName

/-! ## Fetch strategy resolver (`getYouTrackIssues`, `services.go:49`) -/

deriving instance DecidableEq for Except

/-- Outcome of one HTTP exchange: a network failure, or a response with a
status code and the result of decoding its body into issues. -/
inductive HTTPResult where
  | netErr (msg : String)
  | response (status : Nat) (decoded : Except String (List YouTrackIssue))
deriving DecidableEq

/-- `getYouTrackIssuesWithQuery` (`services.go:72`), given the transport
outcome of each of the three query formats in order: a query format succeeds
only on status 200 with a decodable body; anything else moves to the next
format; exhaustion is the strategy's failure. -/
def getYouTrackIssuesWithQuery : List HTTPResult → Except String (List YouTrackIssue)
  | [] => Except.error "query approach failed"
  | r :: rest =>
    match r with
    | HTTPResult.netErr _ => getYouTrackIssuesWithQuery rest
    | HTTPResult.response status decoded =>
      if status == 200 then
        match decoded with
        | Except.ok issues => Except.ok issues
        | Except.error _ => getYouTrackIssuesWithQuery rest
      else getYouTrackIssuesWithQuery rest

/-- `getYouTrackIssuesSimpleCloud` (`services.go:123`): fails on network
error, on any status other than 200, and on a decode error; on success the
issues are filtered client-side by project short name. -/
def getYouTrackIssuesSimpleCloud (projectID : String) (r : HTTPResult) :
    Except String (List YouTrackIssue) :=
  match r with
  | HTTPResult.netErr msg => Except.error ("network error: " ++ msg)
  | HTTPResult.response status decoded =>
    if status ≠ 200 then Except.error ("API error " ++ toString status)
    else
      match decoded with
      | Except.error e => Except.error ("JSON parsing error: " ++ e)
      | Except.ok allIssues =>
        Except.ok (allIssues.filter (fun issue => issue.projectShortName == projectID))

/-- `getYouTrackIssuesViaProjects` (`services.go:174`): fails on network
error, non-200 status, or decode error; otherwise returns the decoded issues
as-is. -/
def getYouTrackIssuesViaProjects (r : HTTPResult) : Except String (List YouTrackIssue) :=
  match r with
  | HTTPResult.netErr msg => Except.error ("network error: " ++ msg)
  | HTTPResult.response status decoded =>
    if status ≠ 200 then
      Except.error ("project endpoint failed with status " ++ toString status)
    else
      match decoded with
      | Except.error e => Except.error ("JSON parsing error: " ++ e)
      | Except.ok issues => Except.ok issues

/-- Resolver loop of `getYouTrackIssues` (`services.go:49`) over the ordered
approach outcomes: the Go success condition is `err == nil && len(issues) >= 0`
(the length test is vacuous and kept verbatim); the first success is returned
as-is and remaining approaches are never consulted; exhaustion yields the
single aggregated error. -/
def getYouTrackIssues : List (Except String (List YouTrackIssue)) →
    Except String (List YouTrackIssue)
  | [] => Except.error "all approaches failed to connect to YouTrack Cloud"
  | r :: rest =>
    match r with
    | Except.ok issues =>
      if issues.length ≥ 0 then Except.ok issues else getYouTrackIssues rest
    | Except.error _ => getYouTrackIssues rest

/-! ## Update operation (`updateYouTrackIssue`, `services.go:490`) -/

/-- A custom-field entry of an update payload. -/
inductive FieldPayload where
  | stateField (stateName : String)
  | subsystemField (subsystemName : String)
deriving DecidableEq

/-- The JSON body of an issue update request. -/
structure UpdateRequest where
  issueID : String
  summary : String
  description : String
  customFields : List FieldPayload
deriving DecidableEq

/-- Outcome of an update POST: network failure, or a status code with the raw
response body. -/
inductive UpdateResponse where
  | netErr (msg : String)
  | resp (status : Nat) (body : String)
deriving DecidableEq

/-- The description string written by both `createYouTrackIssue`
(`services.go:387`) and `updateYouTrackIssue` (`services.go:501`): the task
notes followed by the embedded correlation marker. -/
def syncedDescription (task : AsanaTask) : String :=
  task.notes ++ "\n\n[Synced from Asana ID: " ++ task.gid ++ "]"

/-- Custom fields of the full update payload: the State field (states are
never empty strings), then the Subsystem mapped from the first tag when the
task has tags. -/
def fullUpdateFields (task : AsanaTask) : List FieldPayload :=
  let state := mapAsanaStateToYouTrack task
  let stateFields := if state ≠ "" then [FieldPayload.stateField state] else []
  let subsystemFields :=
    match getAsanaTags task with
    | [] => []
    | primaryTag :: _ =>
      let subsystem := mapTagToSubsystem primaryTag
      if subsystem ≠ "" then [FieldPayload.subsystemField subsystem] else []
  stateFields ++ subsystemFields

/-- The full update request sent first by `updateYouTrackIssue`. -/
def fullUpdateRequest (issueID : String) (task : AsanaTask) : UpdateRequest :=
  { issueID := issueID, summary := task.name, description := syncedDescription task
    customFields := fullUpdateFields task }

/-- Custom fields of the reduced payload of
`updateYouTrackIssueWithoutSubsystem`: only the State field. -/
def reducedUpdateFields (task : AsanaTask) : List FieldPayload :=
  let state := mapAsanaStateToYouTrack task
  if state ≠ "" then [FieldPayload.stateField state] else []

/-- The reduced update request sent by the retry. -/
def reducedUpdateRequest (issueID : String) (task : AsanaTask) : UpdateRequest :=
  { issueID := issueID, summary := task.name, description := syncedDescription task
    customFields := reducedUpdateFields task }

/-- The error-body signature that triggers the Subsystem-free retry. -/
def subsystemErrorSignature : String := "incompatible-issue-custom-field-name-Subsystem"

/-- `updateYouTrackIssueWithoutSubsystem` (`services.go:586`), parameterised
by the server's response function; returns the Go result together with the
requests issued. -/
def updateYouTrackIssueWithoutSubsystem (issueID : String) (task : AsanaTask)
    (respond : UpdateRequest → UpdateResponse) : Except String Unit × List UpdateRequest :=
  let req := reducedUpdateRequest issueID task
  match respond req with
  | UpdateResponse.netErr msg => (Except.error msg, [req])
  | UpdateResponse.resp status body =>
    if status ≠ 200 then (Except.error ("YouTrack update error: " ++ body), [req])
    else (Except.ok (), [req])

/-- `updateYouTrackIssue` (`services.go:490`): refuses display-only
categories before any request; on a non-200 response whose body carries the
Subsystem signature it falls back once to the reduced update. -/
def updateYouTrackIssue (issueID : String) (task : AsanaTask)
    (respond : UpdateRequest → UpdateResponse) : Except String Unit × List UpdateRequest :=
  let state := mapAsanaStateToYouTrack task
  if state == "FINDINGS_NO_SYNC" || state == "READY_FOR_STAGE_NO_SYNC" then
    (Except.error "cannot update ticket for display-only column", [])
  else
    let req := fullUpdateRequest issueID task
    match respond req with
    | UpdateResponse.netErr msg => (Except.error msg, [req])
    | UpdateResponse.resp status body =>
      if status ≠ 200 then
        if goContains body subsystemErrorSignature then
          let second := updateYouTrackIssueWithoutSubsystem issueID task respond
          (second.fst, req :: second.snd)
        else (Except.error ("YouTrack update error: " ++ body), [req])
      else (Except.ok (), [req])

/-! ## Suppression store (`manageIgnoredTicketsHandler`, `loadIgnoredTickets`,
`saveIgnoredTickets`) -/

/-- The suppression-related state: the two in-memory sets and the content of
the persisted flat list (`ignored_tickets.json`). -/
structure SuppressionState where
  tempIgnored : List String
  foreverIgnored : List String
  persisted : List String
deriving DecidableEq

/-- `saveIgnoredTickets` (`services.go:1360`): rewrites the persisted list
wholesale with the keys of the permanent set. -/
def saveIgnoredTickets (st : SuppressionState) : SuppressionState :=
  { st with persisted := st.foreverIgnored }

/-- `loadIgnoredTickets` (`services.go:1344`) at process start: fresh empty
sets, then every persisted id is inserted into the permanent set. -/
def loadIgnoredTickets (persisted : List String) : SuppressionState :=
  { tempIgnored := []
    foreverIgnored := persisted.foldl setInsert []
    persisted := persisted }

/-- The POST branch of `manageIgnoredTicketsHandler`: add/remove against the
permanent set persists immediately; the temporary set is touched in memory
only; unknown actions change nothing. -/
def manageIgnoredTickets (st : SuppressionState) (action ignoreType ticketID : String) :
    SuppressionState :=
  if action == "add" then
    if ignoreType == "forever" then
      saveIgnoredTickets { st with foreverIgnored := setInsert st.foreverIgnored ticketID }
    else { st with tempIgnored := setInsert st.tempIgnored ticketID }
  else if action == "remove" then
    if ignoreType == "forever" then
      saveIgnoredTickets { st with foreverIgnored := setDelete st.foreverIgnored ticketID }
    else { st with tempIgnored := setDelete st.tempIgnored ticketID }
  else st

/-! ## Bucket bookkeeping used by the classification theorems -/

/-- The sync-relevant buckets a source record can land in. -/
inductive SyncBucket where
  | matchedBucket
  | mismatchedBucket
  | missingBucket
  | findingsBucket
  | readyForStageBucket
  | blockedBucket
deriving DecidableEq

/-- Number of entries of the given bucket that carry the given source id. -/
def countBucket (b : SyncBucket) (a : TicketAnalysis) (g : String) : Nat :=
  match b with
  | SyncBucket.matchedBucket => (a.matched.filter (fun m => m.asanaTask.gid == g)).length
  | SyncBucket.mismatchedBucket => (a.mismatched.filter (fun m => m.asanaTask.gid == g)).length
  | SyncBucket.missingBucket => (a.missingYouTrack.filter (fun t => t.gid == g)).length
  | SyncBucket.findingsBucket => (a.findingsTickets.filter (fun t => t.gid == g)).length
  | SyncBucket.readyForStageBucket => (a.readyForStage.filter (fun t => t.gid == g)).length
  | SyncBucket.blockedBucket => (a.blockedTickets.filter (fun m => m.asanaTask.gid == g)).length

/-- Total bucket membership of a source id across the six sync buckets plus
the Suppressed listing. -/
def bucketCount (a : TicketAnalysis) (g : String) : Nat :=
  countBucket SyncBucket.matchedBucket a g + countBucket SyncBucket.mismatchedBucket a g +
  countBucket SyncBucket.missingBucket a g + countBucket SyncBucket.findingsBucket a g +
  countBucket SyncBucket.readyForStageBucket a g + countBucket SyncBucket.blockedBucket a g +
  (if a.ignored.contains g then 1 else 0)

/-- The bucket `classifyTask` sends a task to, if any: `none` for suppressed
tasks and for tasks that fall through every branch. -/
def classifyBucket (youTrackMap : List (String × YouTrackIssue))
    (tempIgnored foreverIgnored : List String) (task : AsanaTask) : Option SyncBucket :=
  if isIgnored tempIgnored foreverIgnored task.gid then none
  else
    let sectionName := getSectionName task
    if goContains sectionName "findings" then some SyncBucket.findingsBucket
    else if goContains sectionName "ready for stage" then some SyncBucket.readyForStageBucket
    else
      match mapGet? youTrackMap task.gid with
      | some existingIssue =>
        if goContains sectionName "blocked" then some SyncBucket.blockedBucket
        else if mapAsanaStateToYouTrack task == getYouTrackStatus existingIssue then
          some SyncBucket.matchedBucket
        else some SyncBucket.mismatchedBucket
      | none =>
        if isSyncableColumn sectionName then some SyncBucket.missingBucket else none

/-! ## Concrete records used by the closed theorems -/

/-- A task sitting in a selected column that is not a syncable column. -/
def cxTaskQA : AsanaTask :=
  { gid := "T1", name := "qa task", notes := ""
    memberships := [{ sectionGid := "sg1", sectionName := "QA" }], tags := [] }

/-- A blocked task with no correlated target record. -/
def cxTaskBlocked : AsanaTask :=
  { gid := "B1", name := "blocked task", notes := ""
    memberships := [{ sectionGid := "sg2", sectionName := "Blocked" }], tags := [] }

/-- First target record carrying correlation key `X`. -/
def cxIssueFirst : YouTrackIssue :=
  { id := "Y1", summary := "first", description := "[Synced from Asana ID: X]"
    customFields := [], projectShortName := "P" }

/-- Second target record carrying the same correlation key `X`. -/
def cxIssueSecond : YouTrackIssue :=
  { id := "Y2", summary := "second", description := "[Synced from Asana ID: X]"
    customFields := [], projectShortName := "P" }

/-- A source record whose id ends in a bracket, breaking the marker
round-trip. -/
def cxTaskBracket : AsanaTask :=
  { gid := "AB]", name := "bracket", notes := "", memberships := [], tags := [] }

/-- A target record holding the marker written for `cxTaskBracket`. -/
def cxIssueBracket : YouTrackIssue :=
  { id := "Y10", summary := "bracket", description := syncedDescription cxTaskBracket
    customFields := [], projectShortName := "P" }

/-- A backlog task used by witnesses. -/
def wTaskBacklog : AsanaTask :=
  { gid := "S1", name := "w1", notes := "notes"
    memberships := [{ sectionGid := "sg3", sectionName := "Backlog" }], tags := [] }

/-- A blocked task with gid `S2`, used by witnesses. -/
def wTaskBlocked : AsanaTask :=
  { gid := "S2", name := "w2", notes := ""
    memberships := [{ sectionGid := "sg4", sectionName := "Blocked" }], tags := [] }

/-- A target record correlated with `wTaskBlocked` but in another state. -/
def wIssueBlocked : YouTrackIssue :=
  { id := "YB", summary := "w2", description := "x\n\n[Synced from Asana ID: S2]"
    customFields := [{ fieldName := "State", value := FieldValue.obj (some "Backlog") none }]
    projectShortName := "P" }

/-- An uncorrelated target record, used by the orphan witness. -/
def wIssueOrphan : YouTrackIssue :=
  { id := "YO", summary := "orphan", description := "y\n\n[Synced from Asana ID: GONE]"
    customFields := [], projectShortName := "P" }

/-- An in-progress task carrying a tag, used by the update witness. -/
def w8Task : AsanaTask :=
  { gid := "G8", name := "n8", notes := "body"
    memberships := [{ sectionGid := "sg5", sectionName := "In Progress" }]
    tags := [{ tagGid := "tg", tagName := "Mobile" }] }

/-- A server that rejects the Subsystem field of the full payload and accepts
the reduced one. -/
def w8Respond : UpdateRequest → UpdateResponse := fun r =>
  if r.customFields = fullUpdateFields w8Task then
    UpdateResponse.resp 400 subsystemErrorSignature
  else UpdateResponse.resp 200 ""

/-- The target record written for `wTaskBacklog`, used by the round-trip
witness. -/
def w10Issue : YouTrackIssue :=
  { id := "W10", summary := "w", description := syncedDescription wTaskBacklog
    customFields := [], projectShortName := "P" }

/-! # Theorems -/

/-- The state mapper never produces the empty string. -/
theorem mapAsanaStateToYouTrack_ne_empty (task : AsanaTask) :
    mapAsanaStateToYouTrack task ≠ "" := by
  rcases h : task.memberships with _ | ⟨m, rest⟩ <;>
    simp only [mapAsanaStateToYouTrack, h]
  · decide
  · split_ifs <;> decide

/-- The implementation cascade over an already lower-cased label agrees with
the spec-side cascade composed with the state-name map. -/
theorem cascade_lower_eq (s : String) :
    (if goContains (goToLower s) "backlog" then "Backlog"
     else if goContains (goToLower s) "in progress" then "In Progress"
     else if goContains (goToLower s) "dev" && !goContains (goToLower s) "ready" then "DEV"
     else if goContains (goToLower s) "stage" && !goContains (goToLower s) "ready" then "STAGE"
     else if goContains (goToLower s) "blocked" then "Blocked"
     else if goContains (goToLower s) "findings" then "FINDINGS_NO_SYNC"
     else if goContains (goToLower s) "ready for stage" then "READY_FOR_STAGE_NO_SYNC"
     else "Backlog") = canonicalStateName (specMapLabelToState s) := by
  unfold specMapLabelToState containsCI
  rw [show goToLower "backlog" = "backlog" by decide,
    show goToLower "in progress" = "in progress" by decide,
    show goToLower "dev" = "dev" by decide,
    show goToLower "ready" = "ready" by decide,
    show goToLower "stage" = "stage" by decide,
    show goToLower "blocked" = "blocked" by decide,
    show goToLower "findings" = "findings" by decide,
    show goToLower "ready for stage" = "ready for stage" by decide]
  split_ifs <;> rfl

/-- C6: the label-to-state mapper is total and equals the ordered
first-match-wins cascade of the specification (backlog, in progress, dev and
not ready, stage and not ready, blocked, findings, ready for stage, default
Backlog), with case-insensitive substring matching, for every task —
including tasks with no group label, which take the Backlog default. -/
theorem C6_label_to_state_cascade (task : AsanaTask) :
    mapAsanaStateToYouTrack task =
      canonicalStateName (specMapLabelToState (rawGroupLabel task)) := by
  rcases h : task.memberships with _ | ⟨m, rest⟩
  · simp only [mapAsanaStateToYouTrack, rawGroupLabel, h]
    decide
  · simp only [mapAsanaStateToYouTrack, rawGroupLabel, h]
    exact cascade_lower_eq m.sectionName

/-- C7 counterexample: the tag "api" differs from the dictionary key "API"
only in letter case, the dictionary maps "API" to "backend", yet the mapper
returns "api". -/
theorem C7_counterexample :
    goToLower "api" = goToLower "API" ∧ "api" ≠ "API" ∧
    mapGet? defaultTagMapping "API" = some "backend" ∧
    mapTagToSubsystem "api" = "api" ∧ "api" ≠ "backend" := by decide

/-- C7 amended: the mapper is total; an exact-case hit returns the dictionary
value; otherwise the lower-cased tag is looked up against the exact keys (not
a genuine case-insensitive lookup), and only a hit of that lower-cased form
returns a dictionary value — on a miss the lower-cased tag itself is
returned. -/
theorem C7_tag_to_subsystem (tag : String) :
    (∀ v, mapGet? defaultTagMapping tag = some v → mapTagToSubsystem tag = v) ∧
    (mapGet? defaultTagMapping tag = none →
      (∀ v, mapGet? defaultTagMapping (goToLower tag) = some v → mapTagToSubsystem tag = v) ∧
      (mapGet? defaultTagMapping (goToLower tag) = none →
        mapTagToSubsystem tag = goToLower tag)) := by
  unfold mapTagToSubsystem
  refine ⟨fun v hv => by rw [hv], fun h0 => ?_⟩
  rw [h0]
  exact ⟨fun v hv => by rw [hv], fun hv => by rw [hv]⟩

/-- C7 witness: an exact hit returns the dictionary value, and a tag whose
lower-cased form misses every key falls back to its lower-cased form. -/
theorem C7_witness :
    mapTagToSubsystem "QA" = "testing" ∧ mapTagToSubsystem "DevOps2" = "devops2" := by
  refine ⟨(C7_tag_to_subsystem "QA").1 "testing" (by decide), ?_⟩
  exact ((C7_tag_to_subsystem "DevOps2").2 (by decide)).2 (by decide)

/-- C4 counterexample: a 204 response (a 2xx status) with a decodable empty
payload makes the strategy fail, so "any transport-level 2xx counts as
success" does not hold of the code, which demands exactly 200. -/
theorem C4_counterexample :
    (200 ≤ 204 ∧ 204 < 300) ∧
    getYouTrackIssuesSimpleCloud "PRJ" (HTTPResult.response 204 (Except.ok [])) =
      Except.error "API error 204" ∧
    getYouTrackIssuesViaProjects (HTTPResult.response 201 (Except.ok [])) =
      Except.error "project endpoint failed with status 201" := by decide

/-- C4 amended: a strategy succeeds exactly on a response with status 200
(not any 2xx) whose body decodes — even into an empty list — and fails on
network error, any other status, or decode error; the resolver returns the
first succeeding strategy's result as-is, never consults the remaining
strategies after a success, and returns one aggregated error when every
strategy failed. -/
theorem C4_fetch_chain :
    (∀ projectID r, (∃ issues, getYouTrackIssuesSimpleCloud projectID r = Except.ok issues) ↔
      ∃ ds, r = HTTPResult.response 200 (Except.ok ds)) ∧
    (∀ r, (∃ issues, getYouTrackIssuesViaProjects r = Except.ok issues) ↔
      ∃ ds, r = HTTPResult.response 200 (Except.ok ds)) ∧
    (∀ rs, (∃ issues, getYouTrackIssuesWithQuery rs = Except.ok issues) ↔
      ∃ r ∈ rs, ∃ ds, r = HTTPResult.response 200 (Except.ok ds)) ∧
    (∀ issues rest, getYouTrackIssues (Except.ok issues :: rest) = Except.ok issues) ∧
    (∀ e rest, getYouTrackIssues (Except.error e :: rest) = getYouTrackIssues rest) ∧
    getYouTrackIssues [] = Except.error "all approaches failed to connect to YouTrack Cloud" := by
  refine ⟨?_, ?_, ?_, ?_, ?_, rfl⟩
  · intro projectID r
    rcases r with msg | ⟨status, decoded⟩
    · simp [getYouTrackIssuesSimpleCloud]
    · rcases decoded with e | ds <;> by_cases h : status = 200 <;>
        simp [getYouTrackIssuesSimpleCloud, h]
  · intro r
    rcases r with msg | ⟨status, decoded⟩
    · simp [getYouTrackIssuesViaProjects]
    · rcases decoded with e | ds <;> by_cases h : status = 200 <;>
        simp [getYouTrackIssuesViaProjects, h]
  · intro rs
    induction rs with
    | nil => simp [getYouTrackIssuesWithQuery]
    | cons r rest ih =>
      rcases r with msg | ⟨status, decoded⟩
      · simp [getYouTrackIssuesWithQuery, ih]
      · rcases decoded with e | ds <;> by_cases h : status = 200 <;>
          simp [getYouTrackIssuesWithQuery, h, ih]
  · intro issues rest
    simp [getYouTrackIssues]
  · intro e rest
    simp [getYouTrackIssues]

/-- C4 witness: a 200 response with an empty decoded payload succeeds, and
the resolver returns the first success without consulting later outcomes. -/
theorem C4_witness :
    getYouTrackIssues [Except.error "x", Except.ok [cxIssueFirst]] = Except.ok [cxIssueFirst] ∧
    ∃ issues, getYouTrackIssuesSimpleCloud "P" (HTTPResult.response 200 (Except.ok [])) =
      Except.ok issues := by
  refine ⟨?_, ?_⟩
  · rw [C4_fetch_chain.2.2.2.2.1 "x" [Except.ok [cxIssueFirst]],
      C4_fetch_chain.2.2.2.1 [cxIssueFirst] []]
  · exact (C4_fetch_chain.1 "P" (HTTPResult.response 200 (Except.ok []))).2 ⟨[], rfl⟩

/-- C8: the update operation refuses display-only categories before issuing
any request; and on a non-200 response whose body carries the Subsystem
"field not recognized" signature it retries exactly once, with a reduced
payload whose custom fields hold only the State field, and reports the
retry's outcome instead of the original failure. -/
theorem C8_update_guard_and_retry (issueID : String) (task : AsanaTask)
    (respond : UpdateRequest → UpdateResponse) :
    ((mapAsanaStateToYouTrack task = "FINDINGS_NO_SYNC" ∨
      mapAsanaStateToYouTrack task = "READY_FOR_STAGE_NO_SYNC") →
      updateYouTrackIssue issueID task respond =
        (Except.error "cannot update ticket for display-only column", [])) ∧
    (∀ status body,
      mapAsanaStateToYouTrack task ≠ "FINDINGS_NO_SYNC" →
      mapAsanaStateToYouTrack task ≠ "READY_FOR_STAGE_NO_SYNC" →
      respond (fullUpdateRequest issueID task) = UpdateResponse.resp status body →
      status ≠ 200 →
      goContains body subsystemErrorSignature = true →
      updateYouTrackIssue issueID task respond =
        ((updateYouTrackIssueWithoutSubsystem issueID task respond).fst,
          fullUpdateRequest issueID task ::
            (updateYouTrackIssueWithoutSubsystem issueID task respond).snd) ∧
      (updateYouTrackIssueWithoutSubsystem issueID task respond).snd =
        [reducedUpdateRequest issueID task] ∧
      (reducedUpdateRequest issueID task).customFields =
        [FieldPayload.stateField (mapAsanaStateToYouTrack task)]) := by
  constructor
  · intro h
    unfold updateYouTrackIssue
    rcases h with h | h <;> simp [h]
  · intro status body h1 h2 hresp hstatus hsig
    refine ⟨?_, ?_, ?_⟩
    · unfold updateYouTrackIssue
      have hcond : (mapAsanaStateToYouTrack task == "FINDINGS_NO_SYNC" ||
          mapAsanaStateToYouTrack task == "READY_FOR_STAGE_NO_SYNC") = false := by
        simp [h1, h2]
      simp only [hcond, Bool.false_eq_true, if_false, hresp]
      simp [hstatus, hsig]
    · rcases hr : respond (reducedUpdateRequest issueID task) with msg | ⟨st, bd⟩
      · simp [updateYouTrackIssueWithoutSubsystem, hr]
      · by_cases hst : st = 200 <;> simp [updateYouTrackIssueWithoutSubsystem, hr, hst]
    · unfold reducedUpdateRequest reducedUpdateFields
      simp [mapAsanaStateToYouTrack_ne_empty task]

/-- C8 witness: against a server that rejects the Subsystem field of the full
payload with the signature body and accepts the reduced payload, the update
issues exactly the full request then the reduced one and succeeds. -/
theorem C8_witness :
    updateYouTrackIssue "Y-8" w8Task w8Respond =
      (Except.ok (), [fullUpdateRequest "Y-8" w8Task, reducedUpdateRequest "Y-8" w8Task]) := by
  have h := (C8_update_guard_and_retry "Y-8" w8Task w8Respond).2 400 subsystemErrorSignature
    (by decide) (by decide) (by decide) (by decide) (by decide)
  rw [h.1]
  decide

/-- C1 counterexample: `cxTaskQA` passes the group filter for the selected
column "qa", is not suppressed, yet one analysis pass places it in zero of
the seven buckets (its section is neither display-only nor syncable and no
target record correlates with it); and even for a standard syncable column,
a temporarily suppressed record passes the filter yet lands in zero buckets,
because the Suppressed listing holds only permanently suppressed ids. -/
theorem C1_counterexample :
    (cxTaskQA ∈ filterAsanaTasksByColumns [cxTaskQA] ["qa"] ∧
      bucketCount (performTicketAnalysis [cxTaskQA] [] ["qa"] [] []) cxTaskQA.gid = 0) ∧
    (wTaskBacklog ∈ filterAsanaTasksByColumns [wTaskBacklog] ["backlog"] ∧
      bucketCount (performTicketAnalysis [wTaskBacklog] [] ["backlog"] ["S1"] [])
        wTaskBacklog.gid = 0) := by
  decide

/-- C2 counterexample: a blocked record with no correlated target record is
placed in MissingInTarget, not in Blocked, so blocked classification is not
unconditional. -/
theorem C2_counterexample :
    cxTaskBlocked ∈ filterAsanaTasksByColumns [cxTaskBlocked] ["blocked"] ∧
    goContains (getSectionName cxTaskBlocked) "blocked" = true ∧
    (performTicketAnalysis [cxTaskBlocked] [] ["blocked"] [] []).blockedTickets = [] ∧
    (performTicketAnalysis [cxTaskBlocked] [] ["blocked"] [] []).missingYouTrack =
      [cxTaskBlocked] := by
  decide

/-- C3 counterexample: two target records carry the same non-empty key "X";
the index maps the key to the second (last-seen) record, not the first. -/
theorem C3_counterexample :
    extractAsanaID cxIssueFirst = "X" ∧ extractAsanaID cxIssueSecond = "X" ∧
    cxIssueFirst ≠ cxIssueSecond ∧
    mapGet? (buildYouTrackMap [cxIssueFirst, cxIssueSecond]) "X" = some cxIssueSecond ∧
    mapGet? (buildYouTrackMap [cxIssueFirst, cxIssueSecond]) "X" ≠ some cxIssueFirst := by
  decide

/-- C10 counterexample: the source record `cxTaskBracket` has a clean body
(no line contains the marker) but an id ending in a bracket; extracting the
key from the description written for it yields "AB", not the id "AB]". -/
theorem C10_counterexample :
    (goSplit cxTaskBracket.notes "\n").all (fun line => !goContains line "Asana ID:") = true ∧
    cxIssueBracket.description = syncedDescription cxTaskBracket ∧
    extractAsanaID cxIssueBracket = "AB" ∧ cxTaskBracket.gid ≠ "AB" := by
  decide

/-- One classification step changes a bucket's count for an id by exactly the
indicator of `classifyBucket`. -/
theorem countBucket_classifyTask (ytm : List (String × YouTrackIssue)) (ti fi : List String)
    (a : TicketAnalysis) (t : AsanaTask) (b : SyncBucket) (g : String) :
    countBucket b (classifyTask ytm ti fi a t) g =
      countBucket b a g +
        (if classifyBucket ytm ti fi t = some b ∧ t.gid = g then 1 else 0) := by
  cases hig : isIgnored ti fi t.gid with
  | true => simp [classifyTask, classifyBucket, hig]
  | false =>
    by_cases hf : goContains (getSectionName t) "findings"
    · rcases hl : mapGet? ytm t.gid with _ | issue
      · cases b <;>
          simp [classifyTask, classifyBucket, hig, hf, hl, countBucket, List.filter_append] <;>
          by_cases hg : t.gid = g <;> simp [hg]
      · by_cases ha : isActiveYouTrackStatus (getYouTrackStatus issue) <;>
          cases b <;>
          simp [classifyTask, classifyBucket, hig, hf, hl, ha, countBucket,
            List.filter_append] <;>
          by_cases hg : t.gid = g <;> simp [hg]
    · by_cases hr : goContains (getSectionName t) "ready for stage"
      · cases b <;>
          simp [classifyTask, classifyBucket, hig, hf, hr, countBucket, List.filter_append] <;>
          by_cases hg : t.gid = g <;> simp [hg]
      · rcases hl : mapGet? ytm t.gid with _ | issue
        · by_cases hs : isSyncableColumn (getSectionName t) <;>
            cases b <;>
            simp [classifyTask, classifyBucket, hig, hf, hr, hl, hs, countBucket,
              List.filter_append] <;>
            by_cases hg : t.gid = g <;> simp [hg]
        · by_cases hb : goContains (getSectionName t) "blocked"
          · cases b <;>
              simp [classifyTask, classifyBucket, hig, hf, hr, hl, hb, countBucket,
                List.filter_append] <;>
              by_cases hg : t.gid = g <;> simp [hg]
          · by_cases he : mapAsanaStateToYouTrack t = getYouTrackStatus issue <;>
              cases b <;>
              simp [classifyTask, classifyBucket, hig, hf, hr, hl, hb, he, countBucket,
                List.filter_append] <;>
              by_cases hg : t.gid = g <;> simp [hg]

/-- Folding the classification over a task list adds one indicator per task. -/
theorem countBucket_foldl_classify (ytm : List (String × YouTrackIssue)) (ti fi : List String)
    (ts : List AsanaTask) (a : TicketAnalysis) (b : SyncBucket) (g : String) :
    countBucket b (ts.foldl (classifyTask ytm ti fi) a) g =
      countBucket b a g +
        (ts.map (fun t =>
          if classifyBucket ytm ti fi t = some b ∧ t.gid = g then 1 else 0)).sum := by
  induction ts generalizing a with
  | nil => simp
  | cons t ts ih =>
    simp only [List.foldl_cons, List.map_cons, List.sum_cons]
    rw [ih, countBucket_classifyTask]
    omega

/-- The orphan pass never changes the six task buckets. -/
theorem countBucket_orphanStep (am : List (String × AsanaTask)) (a : TicketAnalysis)
    (issue : YouTrackIssue) (b : SyncBucket) (g : String) :
    countBucket b (orphanStep am a issue) g = countBucket b a g := by
  by_cases he : extractAsanaID issue = ""
  · simp [orphanStep, he]
  · rcases hl : mapGet? am (extractAsanaID issue) with _ | x <;>
      cases b <;> simp [orphanStep, he, hl, countBucket]

/-- Fold version of `countBucket_orphanStep`. -/
theorem countBucket_foldl_orphan (am : List (String × AsanaTask))
    (issues : List YouTrackIssue) (a : TicketAnalysis) (b : SyncBucket) (g : String) :
    countBucket b (issues.foldl (orphanStep am) a) g = countBucket b a g := by
  induction issues generalizing a with
  | nil => rfl
  | cons i is ih => rw [List.foldl_cons, ih, countBucket_orphanStep]

/-- One classification step never changes the Suppressed listing. -/
theorem classifyTask_ignored (ytm : List (String × YouTrackIssue)) (ti fi : List String)
    (a : TicketAnalysis) (t : AsanaTask) :
    (classifyTask ytm ti fi a t).ignored = a.ignored := by
  cases hig : isIgnored ti fi t.gid with
  | true => simp [classifyTask, hig]
  | false =>
    by_cases hf : goContains (getSectionName t) "findings"
    · rcases hl : mapGet? ytm t.gid with _ | issue
      · simp [classifyTask, hig, hf, hl]
      · by_cases ha : isActiveYouTrackStatus (getYouTrackStatus issue) <;>
          simp [classifyTask, hig, hf, hl, ha]
    · by_cases hr : goContains (getSectionName t) "ready for stage"
      · simp [classifyTask, hig, hf, hr]
      · rcases hl : mapGet? ytm t.gid with _ | issue
        · by_cases hs : isSyncableColumn (getSectionName t) <;>
            simp [classifyTask, hig, hf, hr, hl, hs]
        · by_cases hb : goContains (getSectionName t) "blocked"
          · simp [classifyTask, hig, hf, hr, hl, hb]
          · by_cases he : mapAsanaStateToYouTrack t = getYouTrackStatus issue <;>
              simp [classifyTask, hig, hf, hr, hl, hb, he]

/-- One classification step never touches the orphan list. -/
theorem classifyTask_orphaned (ytm : List (String × YouTrackIssue)) (ti fi : List String)
    (a : TicketAnalysis) (t : AsanaTask) :
    (classifyTask ytm ti fi a t).orphanedYouTrack = a.orphanedYouTrack := by
  cases hig : isIgnored ti fi t.gid with
  | true => simp [classifyTask, hig]
  | false =>
    by_cases hf : goContains (getSectionName t) "findings"
    · rcases hl : mapGet? ytm t.gid with _ | issue
      · simp [classifyTask, hig, hf, hl]
      · by_cases ha : isActiveYouTrackStatus (getYouTrackStatus issue) <;>
          simp [classifyTask, hig, hf, hl, ha]
    · by_cases hr : goContains (getSectionName t) "ready for stage"
      · simp [classifyTask, hig, hf, hr]
      · rcases hl : mapGet? ytm t.gid with _ | issue
        · by_cases hs : isSyncableColumn (getSectionName t) <;>
            simp [classifyTask, hig, hf, hr, hl, hs]
        · by_cases hb : goContains (getSectionName t) "blocked"
          · simp [classifyTask, hig, hf, hr, hl, hb]
          · by_cases he : mapAsanaStateToYouTrack t = getYouTrackStatus issue <;>
              simp [classifyTask, hig, hf, hr, hl, hb, he]

/-- Fold versions of the field-preservation lemmas. -/
theorem foldl_classify_ignored (ytm : List (String × YouTrackIssue)) (ti fi : List String)
    (ts : List AsanaTask) (a : TicketAnalysis) :
    (ts.foldl (classifyTask ytm ti fi) a).ignored = a.ignored := by
  induction ts generalizing a with
  | nil => rfl
  | cons t ts ih => rw [List.foldl_cons, ih, classifyTask_ignored]

/-- The classify fold leaves the orphan list unchanged. -/
theorem foldl_classify_orphaned (ytm : List (String × YouTrackIssue)) (ti fi : List String)
    (ts : List AsanaTask) (a : TicketAnalysis) :
    (ts.foldl (classifyTask ytm ti fi) a).orphanedYouTrack = a.orphanedYouTrack := by
  induction ts generalizing a with
  | nil => rfl
  | cons t ts ih => rw [List.foldl_cons, ih, classifyTask_orphaned]

/-- The orphan pass never changes the Suppressed listing. -/
theorem orphanStep_ignored (am : List (String × AsanaTask)) (a : TicketAnalysis)
    (issue : YouTrackIssue) : (orphanStep am a issue).ignored = a.ignored := by
  by_cases he : extractAsanaID issue = ""
  · simp [orphanStep, he]
  · rcases hl : mapGet? am (extractAsanaID issue) with _ | x <;> simp [orphanStep, he, hl]

/-- Fold version of `orphanStep_ignored`. -/
theorem foldl_orphan_ignored (am : List (String × AsanaTask)) (issues : List YouTrackIssue)
    (a : TicketAnalysis) : (issues.foldl (orphanStep am) a).ignored = a.ignored := by
  induction issues generalizing a with
  | nil => rfl
  | cons i is ih => rw [List.foldl_cons, ih, orphanStep_ignored]

/-- The orphan pass appends exactly the issues with a non-empty key missing
from the filtered source map. -/
theorem foldl_orphan_orphaned (am : List (String × AsanaTask)) (issues : List YouTrackIssue)
    (a : TicketAnalysis) :
    (issues.foldl (orphanStep am) a).orphanedYouTrack =
      a.orphanedYouTrack ++ issues.filter (fun issue =>
        extractAsanaID issue != "" && (mapGet? am (extractAsanaID issue)).isNone) := by
  induction issues generalizing a with
  | nil => simp
  | cons i is ih =>
    rw [List.foldl_cons, ih]
    by_cases he : extractAsanaID i = ""
    · simp [orphanStep, he, List.filter_cons]
    · rcases hl : mapGet? am (extractAsanaID i) with _ | x <;>
        simp [orphanStep, he, hl, List.filter_cons]

/-- The Suppressed listing of an analysis is exactly the permanent set. -/
theorem performTicketAnalysis_ignored (allTasks : List AsanaTask)
    (issues : List YouTrackIssue) (cols ti fi : List String) :
    (performTicketAnalysis allTasks issues cols ti fi).ignored = fi := by
  unfold performTicketAnalysis
  rw [foldl_orphan_ignored, foldl_classify_ignored]

/-- Bucket counts of a full analysis: one indicator per filtered task. -/
theorem countBucket_performTicketAnalysis (allTasks : List AsanaTask)
    (issues : List YouTrackIssue) (cols ti fi : List String) (b : SyncBucket) (g : String) :
    countBucket b (performTicketAnalysis allTasks issues cols ti fi) g =
      ((filterAsanaTasksByColumns allTasks cols).map (fun t =>
        if classifyBucket (buildYouTrackMap issues) ti fi t = some b ∧ t.gid = g
        then 1 else 0)).sum := by
  unfold performTicketAnalysis
  rw [countBucket_foldl_orphan, countBucket_foldl_classify]
  cases b <;> simp [countBucket]

/-- The orphan list of a full analysis. -/
theorem orphaned_performTicketAnalysis (allTasks : List AsanaTask)
    (issues : List YouTrackIssue) (cols ti fi : List String) :
    (performTicketAnalysis allTasks issues cols ti fi).orphanedYouTrack =
      issues.filter (fun issue =>
        extractAsanaID issue != "" &&
        (mapGet? (buildAsanaMap (filterAsanaTasksByColumns allTasks cols))
          (extractAsanaID issue)).isNone) := by
  unfold performTicketAnalysis
  rw [foldl_orphan_orphaned, foldl_classify_orphaned]
  simp

/-- `Char.ofNat` of a valid codepoint round-trips through `toNat`. -/
theorem charToNat_ofNat {n : Nat} (h : n.isValidChar) : (Char.ofNat n).toNat = n := by
  simp only [Char.ofNat, h, dif_pos, Char.ofNatAux, Char.toNat]
  rfl

/-- ASCII lower-casing is idempotent. -/
theorem charToLower_idem (c : Char) : Char.toLower (Char.toLower c) = Char.toLower c := by
  unfold Char.toLower
  by_cases h : c.toNat ≥ 65 ∧ c.toNat ≤ 90
  · simp only [h, and_self, if_true]
    have hv : Nat.isValidChar (c.toNat + 32) := by
      left
      omega
    rw [charToNat_ofNat hv, if_neg (by omega)]
  · simp [h]

/-- `String.mk` then `toList` is the identity. -/
theorem toList_mk (l : List Char) : (String.mk l).toList = l := rfl

/-- `goToLower` is idempotent. -/
theorem goToLower_idem (s : String) : goToLower (goToLower s) = goToLower s := by
  unfold goToLower
  rw [toList_mk, List.map_map]
  simp [Function.comp_def, charToLower_idem]

/-- Filtered tasks always carry a membership. -/
theorem mem_filter_memberships {tasks : List AsanaTask} {cols : List String}
    {task : AsanaTask} (h : task ∈ filterAsanaTasksByColumns tasks cols) :
    task.memberships ≠ [] := by
  unfold filterAsanaTasksByColumns at h
  have hp := (List.mem_filter.mp h).2
  intro he
  simp [taskMatchesColumns, he] at hp

/-- For a task with a membership, the section name is already lower-cased. -/
theorem getSectionName_lower (task : AsanaTask) (hne : task.memberships ≠ []) :
    goToLower (getSectionName task) = getSectionName task := by
  rcases hm : task.memberships with _ | ⟨m, rest⟩
  · exact absurd hm hne
  · simp [getSectionName, hm, goToLower_idem]

/-- A lower-cased section containing "blocked" is a syncable column. -/
theorem isSyncableColumn_of_blocked {s : String} (hlow : goToLower s = s)
    (hb : goContains s "blocked" = true) : isSyncableColumn s = true := by
  have h1 : goContains (goToLower s) (goToLower "blocked") = true := by
    rw [hlow, show goToLower "blocked" = "blocked" from by decide]
    exact hb
  unfold isSyncableColumn
  exact List.any_eq_true.mpr ⟨"blocked", by decide, h1⟩

/-- With pairwise distinct gids, only the task itself contributes to the
indicator sum over the filtered list. -/
theorem sum_indicator_eq (ytm : List (String × YouTrackIssue)) (ti fi : List String)
    (b : SyncBucket) (ts : List AsanaTask) (t : AsanaTask)
    (hmem : t ∈ ts) (hnodup : (ts.map (fun x => x.gid)).Nodup) :
    (ts.map (fun x =>
      if classifyBucket ytm ti fi x = some b ∧ x.gid = t.gid then 1 else 0)).sum =
      (if classifyBucket ytm ti fi t = some b then 1 else 0) := by
  induction ts with
  | nil => exact absurd hmem (List.not_mem_nil t)
  | cons y ys ih =>
    rw [List.map_cons, List.sum_cons]
    rcases List.mem_cons.mp hmem with h | h
    · subst h
      have hnotin : t.gid ∉ ys.map (fun x => x.gid) := (List.nodup_cons.mp hnodup).1
      have hzero : (ys.map (fun x =>
          if classifyBucket ytm ti fi x = some b ∧ x.gid = t.gid then 1 else 0)).sum = 0 := by
        apply List.sum_eq_zero
        intro n hn
        rcases List.mem_map.mp hn with ⟨x, hx, hxe⟩
        have hne : x.gid ≠ t.gid := by
          intro he
          exact hnotin (he ▸ List.mem_map_of_mem (fun z => z.gid) hx)
        rw [← hxe, if_neg (by tauto)]
      rw [hzero]
      simp
    · have hne : y.gid ≠ t.gid := by
        intro he
        have hm2 : t.gid ∈ ys.map (fun x => x.gid) := List.mem_map_of_mem _ h
        apply (List.nodup_cons.mp hnodup).1
        simpa only [he] using hm2
      rw [if_neg (by tauto), ih h (List.nodup_cons.mp hnodup).2]
      simp

/-- Exactly one bucket indicator fires for a present classification. -/
theorem sum_over_buckets (o : Option SyncBucket) :
    (if o = some SyncBucket.matchedBucket then 1 else 0) +
    (if o = some SyncBucket.mismatchedBucket then 1 else 0) +
    (if o = some SyncBucket.missingBucket then 1 else 0) +
    (if o = some SyncBucket.findingsBucket then 1 else 0) +
    (if o = some SyncBucket.readyForStageBucket then 1 else 0) +
    (if o = some SyncBucket.blockedBucket then 1 else 0) =
      (if o.isSome then 1 else 0) := by
  rcases o with _ | b
  · simp
  · cases b <;> simp

/-- `classifyBucket` fires exactly when the task is unsuppressed and matches
one of the classification conditions. -/
theorem classifyBucket_isSome (ytm : List (String × YouTrackIssue)) (ti fi : List String)
    (t : AsanaTask) :
    (classifyBucket ytm ti fi t).isSome =
      (!isIgnored ti fi t.gid &&
        (goContains (getSectionName t) "findings" ||
         goContains (getSectionName t) "ready for stage" ||
         (mapGet? ytm t.gid).isSome ||
         isSyncableColumn (getSectionName t))) := by
  cases hig : isIgnored ti fi t.gid with
  | true => simp [classifyBucket, hig]
  | false =>
    by_cases hf : goContains (getSectionName t) "findings"
    · simp [classifyBucket, hig, hf]
    · by_cases hr : goContains (getSectionName t) "ready for stage"
      · simp [classifyBucket, hig, hf, hr]
      · rcases hl : mapGet? ytm t.gid with _ | issue
        · by_cases hs : isSyncableColumn (getSectionName t) <;>
            simp [classifyBucket, hig, hf, hr, hl, hs]
        · by_cases hb : goContains (getSectionName t) "blocked" <;>
            by_cases he : mapAsanaStateToYouTrack t = getYouTrackStatus issue <;>
            simp [classifyBucket, hig, hf, hr, hl, hb, he]

/-- C1 amended: a filtered record's total bucket membership is at most one,
and is exactly one precisely when the record is permanently suppressed
(listed under Suppressed), or unsuppressed with a display-only section, a
correlated target record, or a syncable section; an unsuppressed filtered
record with no correlated target and a non-syncable, non-display section —
and likewise a temporarily suppressed record — lands in zero buckets. -/
theorem C1_bucket_membership (allTasks : List AsanaTask) (issues : List YouTrackIssue)
    (cols ti fi : List String) (task : AsanaTask)
    (hmem : task ∈ filterAsanaTasksByColumns allTasks cols)
    (hnodup : ((filterAsanaTasksByColumns allTasks cols).map (fun t => t.gid)).Nodup) :
    bucketCount (performTicketAnalysis allTasks issues cols ti fi) task.gid =
      (if fi.contains task.gid then 1
       else if ti.contains task.gid then 0
       else if goContains (getSectionName task) "findings" ||
               goContains (getSectionName task) "ready for stage" ||
               (mapGet? (buildYouTrackMap issues) task.gid).isSome ||
               isSyncableColumn (getSectionName task)
       then 1 else 0) := by
  unfold bucketCount
  rw [performTicketAnalysis_ignored]
  have hs := fun b => (countBucket_performTicketAnalysis allTasks issues cols ti fi b
      task.gid).trans
    (sum_indicator_eq (buildYouTrackMap issues) ti fi b
      (filterAsanaTasksByColumns allTasks cols) task hmem hnodup)
  rw [hs SyncBucket.matchedBucket, hs SyncBucket.mismatchedBucket, hs SyncBucket.missingBucket,
    hs SyncBucket.findingsBucket, hs SyncBucket.readyForStageBucket, hs SyncBucket.blockedBucket,
    sum_over_buckets, classifyBucket_isSome]
  cases hfi : fi.contains task.gid <;> cases hti : ti.contains task.gid <;>
    simp [isIgnored, hfi, hti] <;> simp_all

/-- C1 witness: a backlog record with no correlated target record lands in
exactly one bucket. -/
theorem C1_witness :
    wTaskBacklog ∈ filterAsanaTasksByColumns [wTaskBacklog] ["backlog"] ∧
    bucketCount (performTicketAnalysis [wTaskBacklog] [] ["backlog"] [] [])
      wTaskBacklog.gid = 1 := by
  refine ⟨by decide, ?_⟩
  rw [C1_bucket_membership [wTaskBacklog] [] ["backlog"] [] [] wTaskBacklog
    (by decide) (by decide)]
  decide

/-- C2 amended: an unsuppressed filtered record whose section contains
"blocked" (and is not display-only) is bucketed Blocked exactly when a
correlated target record exists — state equality is never consulted, so it is
never Matched or Mismatched; without a correlated target record it is
bucketed MissingInTarget, not Blocked. -/
theorem C2_blocked_needs_target (allTasks : List AsanaTask) (issues : List YouTrackIssue)
    (cols ti fi : List String) (task : AsanaTask)
    (hmem : task ∈ filterAsanaTasksByColumns allTasks cols)
    (hnodup : ((filterAsanaTasksByColumns allTasks cols).map (fun t => t.gid)).Nodup)
    (hni : isIgnored ti fi task.gid = false)
    (hblocked : goContains (getSectionName task) "blocked" = true)
    (hnf : goContains (getSectionName task) "findings" = false)
    (hnr : goContains (getSectionName task) "ready for stage" = false) :
    (∀ issue, mapGet? (buildYouTrackMap issues) task.gid = some issue →
      countBucket SyncBucket.blockedBucket
        (performTicketAnalysis allTasks issues cols ti fi) task.gid = 1 ∧
      countBucket SyncBucket.matchedBucket
        (performTicketAnalysis allTasks issues cols ti fi) task.gid = 0 ∧
      countBucket SyncBucket.mismatchedBucket
        (performTicketAnalysis allTasks issues cols ti fi) task.gid = 0 ∧
      countBucket SyncBucket.missingBucket
        (performTicketAnalysis allTasks issues cols ti fi) task.gid = 0) ∧
    (mapGet? (buildYouTrackMap issues) task.gid = none →
      countBucket SyncBucket.missingBucket
        (performTicketAnalysis allTasks issues cols ti fi) task.gid = 1 ∧
      countBucket SyncBucket.blockedBucket
        (performTicketAnalysis allTasks issues cols ti fi) task.gid = 0 ∧
      countBucket SyncBucket.matchedBucket
        (performTicketAnalysis allTasks issues cols ti fi) task.gid = 0 ∧
      countBucket SyncBucket.mismatchedBucket
        (performTicketAnalysis allTasks issues cols ti fi) task.gid = 0) := by
  have hs := fun b => (countBucket_performTicketAnalysis allTasks issues cols ti fi b
      task.gid).trans
    (sum_indicator_eq (buildYouTrackMap issues) ti fi b
      (filterAsanaTasksByColumns allTasks cols) task hmem hnodup)
  constructor
  · intro issue hl
    have hcb : classifyBucket (buildYouTrackMap issues) ti fi task =
        some SyncBucket.blockedBucket := by
      simp [classifyBucket, hni, hnf, hnr, hblocked, hl]
    refine ⟨?_, ?_, ?_, ?_⟩ <;> rw [hs _, hcb] <;> simp
  · intro hl
    have hlow : goToLower (getSectionName task) = getSectionName task :=
      getSectionName_lower task (mem_filter_memberships hmem)
    have hsync : isSyncableColumn (getSectionName task) = true :=
      isSyncableColumn_of_blocked hlow hblocked
    have hcb : classifyBucket (buildYouTrackMap issues) ti fi task =
        some SyncBucket.missingBucket := by
      simp [classifyBucket, hni, hnf, hnr, hl, hsync]
    refine ⟨?_, ?_, ?_, ?_⟩ <;> rw [hs _, hcb] <;> simp

/-- C2 witness: a blocked record with a correlated target record in a
different state is bucketed Blocked and nowhere else. -/
theorem C2_witness :
    countBucket SyncBucket.blockedBucket
      (performTicketAnalysis [wTaskBlocked] [wIssueBlocked] ["blocked"] [] [])
      wTaskBlocked.gid = 1 ∧
    countBucket SyncBucket.mismatchedBucket
      (performTicketAnalysis [wTaskBlocked] [wIssueBlocked] ["blocked"] [] [])
      wTaskBlocked.gid = 0 := by
  have h := (C2_blocked_needs_target [wTaskBlocked] [wIssueBlocked] ["blocked"] [] []
    wTaskBlocked (by decide) (by decide) (by decide) (by decide) (by decide) (by decide)).1
    wIssueBlocked (by decide)
  exact ⟨h.1, h.2.2.1⟩

/-- Lookup in the issue index after the construction fold: the most recent
matching issue wins, falling back to the accumulator. -/
theorem mapGet?_foldl_yt (issues : List YouTrackIssue)
    (acc : List (String × YouTrackIssue)) (k : String) (hk : k ≠ "") :
    mapGet? (issues.foldl (fun m issue =>
        let asanaID := extractAsanaID issue
        if asanaID ≠ "" then mapSet m asanaID issue else m) acc) k =
      (match issues.reverse.find? (fun i => extractAsanaID i == k) with
       | some i => some i
       | none => mapGet? acc k) := by
  induction issues generalizing acc with
  | nil => simp
  | cons i is ih =>
    rw [List.foldl_cons, ih, List.reverse_cons, List.find?_append]
    rcases hfind : is.reverse.find? (fun j => extractAsanaID j == k) with _ | j
    · simp only [Option.none_orElse]
      by_cases he : extractAsanaID i = ""
      · have hp : (extractAsanaID i == k) = false := by
          rw [he]
          exact beq_eq_false_iff_ne.mpr (Ne.symm hk)
        simp [he, hp, Ne.symm hk]
      · by_cases hik : extractAsanaID i = k
        · have hkne : ¬k = "" := hk
          simp [he, mapSet, mapGet?, hik, List.find?, hkne]
        · have hp : (extractAsanaID i == k) = false := beq_eq_false_iff_ne.mpr hik
          have hkk : (k == extractAsanaID i) = false :=
            beq_eq_false_iff_ne.mpr (fun h2 => hik h2.symm)
          simp [he, mapSet, mapGet?, hp, hkk, List.find?]
    · simp

/-- C3 amended: the key-to-record index maps every non-empty key to the last
record with that key in the target snapshot; all earlier records with the
same key are silently shadowed. -/
theorem C3_last_seen_wins (issues : List YouTrackIssue) (k : String) (hk : k ≠ "") :
    mapGet? (buildYouTrackMap issues) k =
      issues.reverse.find? (fun i => extractAsanaID i == k) := by
  unfold buildYouTrackMap
  rw [mapGet?_foldl_yt issues [] k hk]
  rcases issues.reverse.find? (fun i => extractAsanaID i == k) with _ | j <;> simp [mapGet?]

/-- C3 witness: with two records carrying key "X", lookup returns the later
record. -/
theorem C3_witness :
    mapGet? (buildYouTrackMap [cxIssueFirst, cxIssueSecond]) "X" = some cxIssueSecond := by
  rw [C3_last_seen_wins [cxIssueFirst, cxIssueSecond] "X" (by decide)]
  decide

/-- Lookup in the source index after the construction fold. -/
theorem mapGet?_foldl_asana (ts : List AsanaTask) (acc : List (String × AsanaTask))
    (k : String) :
    (mapGet? (ts.foldl (fun m task => mapSet m task.gid task) acc) k).isSome =
      (ts.any (fun t => t.gid == k) || (mapGet? acc k).isSome) := by
  induction ts generalizing acc with
  | nil => simp
  | cons t ts ih =>
    rw [List.foldl_cons, ih]
    by_cases h : k = t.gid
    · have h2 : (t.gid == k) = true := beq_iff_eq.mpr h.symm
      simp [mapSet, mapGet?, h, h2]
    · have h2 : (t.gid == k) = false := beq_eq_false_iff_ne.mpr (fun h3 => h h3.symm)
      have h3 : (k == t.gid) = false := beq_eq_false_iff_ne.mpr h
      simp [mapSet, mapGet?, h3, h2]

/-- A key is present in the source index exactly when a filtered task carries
it as gid. -/
theorem buildAsanaMap_isSome (ts : List AsanaTask) (k : String) :
    (mapGet? (buildAsanaMap ts) k).isSome = ts.any (fun t => t.gid == k) := by
  unfold buildAsanaMap
  rw [mapGet?_foldl_asana]
  simp [mapGet?]

/-- C5: a target record of the snapshot is orphaned exactly when its
extracted key is non-empty and differs from every filtered source record's
id; records whose key matches a filtered source id, and records with an
empty key, are never orphaned. -/
theorem C5_orphan_pass (allTasks : List AsanaTask) (issues : List YouTrackIssue)
    (cols ti fi : List String) (issue : YouTrackIssue) (hmem : issue ∈ issues) :
    (issue ∈ (performTicketAnalysis allTasks issues cols ti fi).orphanedYouTrack ↔
      (extractAsanaID issue ≠ "" ∧
        ∀ t ∈ filterAsanaTasksByColumns allTasks cols, t.gid ≠ extractAsanaID issue)) := by
  rw [orphaned_performTicketAnalysis, List.mem_filter]
  constructor
  · rintro ⟨-, hp⟩
    rw [Bool.and_eq_true] at hp
    refine ⟨by simpa using hp.1, ?_⟩
    intro t ht he
    have hsome := buildAsanaMap_isSome (filterAsanaTasksByColumns allTasks cols)
      (extractAsanaID issue)
    have hnone : (mapGet? (buildAsanaMap (filterAsanaTasksByColumns allTasks cols))
        (extractAsanaID issue)).isSome = false := by
      rcases hq : mapGet? (buildAsanaMap (filterAsanaTasksByColumns allTasks cols))
          (extractAsanaID issue) with _ | v
      · rfl
      · rw [hq] at hp
        simp at hp
    rw [hnone] at hsome
    have : (filterAsanaTasksByColumns allTasks cols).any
        (fun t => t.gid == extractAsanaID issue) = true :=
      List.any_eq_true.mpr ⟨t, ht, beq_iff_eq.mpr he⟩
    rw [this] at hsome
    exact Bool.true_eq_false.mp hsome.symm
  · rintro ⟨hne, hall⟩
    refine ⟨hmem, ?_⟩
    rw [Bool.and_eq_true]
    refine ⟨by simpa using hne, ?_⟩
    have hany : (filterAsanaTasksByColumns allTasks cols).any
        (fun t => t.gid == extractAsanaID issue) = false := by
      rw [List.any_eq_false]
      intro t ht
      exact fun hb => hall t ht (beq_iff_eq.mp hb)
    have hsome := buildAsanaMap_isSome (filterAsanaTasksByColumns allTasks cols)
      (extractAsanaID issue)
    rw [hany] at hsome
    rcases hq : mapGet? (buildAsanaMap (filterAsanaTasksByColumns allTasks cols))
        (extractAsanaID issue) with _ | v
    · rfl
    · rw [hq] at hsome
      simp at hsome

/-- C5 witness: an uncorrelated target record is orphaned while the
correlated one is not. -/
theorem C5_witness :
    wIssueOrphan ∈
      (performTicketAnalysis [wTaskBacklog] [wIssueOrphan] ["backlog"] [] []).orphanedYouTrack := by
  exact (C5_orphan_pass [wTaskBacklog] [wIssueOrphan] ["backlog"] [] [] wIssueOrphan
    (by decide)).mpr (by decide)

/-- Inserting a key makes the set contain it. -/
theorem mem_setInsert_self (m : List String) (k : String) : k ∈ setInsert m k := by
  unfold setInsert
  by_cases h : m.contains k = true
  · rw [if_pos h]
    simpa using h
  · rw [if_neg h]
    exact List.mem_cons_self k m

/-- Bool form of `mem_setInsert_self`. -/
theorem setInsert_contains (m : List String) (k : String) :
    (setInsert m k).contains k = true := by
  simpa using mem_setInsert_self m k

/-- Membership after folding `setInsert` over a list. -/
theorem contains_foldl_setInsert (l acc : List String) (k : String) :
    (l.foldl setInsert acc).contains k = (acc.contains k || l.contains k) := by
  induction l generalizing acc with
  | nil => simp
  | cons x xs ih =>
    rw [List.foldl_cons, ih]
    by_cases hx : acc.contains x <;> by_cases hk : k = x <;>
      simp [setInsert, hx, hk] <;> simp_all

/-- A suppressed id is counted in no sync bucket of any analysis. -/
theorem countBucket_zero_of_ignored (allTasks : List AsanaTask)
    (issues : List YouTrackIssue) (cols ti fi : List String) (b : SyncBucket) (g : String)
    (hig : isIgnored ti fi g = true) :
    countBucket b (performTicketAnalysis allTasks issues cols ti fi) g = 0 := by
  rw [countBucket_performTicketAnalysis]
  apply List.sum_eq_zero
  intro n hn
  rcases List.mem_map.mp hn with ⟨t, ht, hte⟩
  rw [← hte]
  by_cases hg : t.gid = g
  · have hcb : classifyBucket (buildYouTrackMap issues) ti fi t = none := by
      have hig2 : isIgnored ti fi t.gid = true := by
        rw [hg]
        exact hig
      simp [classifyBucket, hig2]
    simp [hcb]
  · simp [hg]

/-- C9: permanent suppression mutations (add and remove) rewrite the
persisted list wholesale with the full current permanent set, while
temporary mutations never touch the persisted store; after permanently
suppressing an id, a re-run of the classification counts that id in zero
sync buckets and lists it under Suppressed, and after a process restart that
reloads the persisted list the id is still permanent, still excluded from
every sync bucket, and still listed under Suppressed. -/
theorem C9_suppression_lifecycle (st : SuppressionState) (ticketID : String)
    (allTasks : List AsanaTask) (issues : List YouTrackIssue) (cols : List String) :
    ((manageIgnoredTickets st "add" "forever" ticketID).persisted =
      (manageIgnoredTickets st "add" "forever" ticketID).foreverIgnored) ∧
    ((manageIgnoredTickets st "remove" "forever" ticketID).persisted =
      (manageIgnoredTickets st "remove" "forever" ticketID).foreverIgnored) ∧
    (∀ action ignoreType, ignoreType ≠ "forever" →
      (manageIgnoredTickets st action ignoreType ticketID).persisted = st.persisted) ∧
    (∀ b, countBucket b (performTicketAnalysis allTasks issues cols
        (manageIgnoredTickets st "add" "forever" ticketID).tempIgnored
        (manageIgnoredTickets st "add" "forever" ticketID).foreverIgnored) ticketID = 0) ∧
    ((performTicketAnalysis allTasks issues cols
        (manageIgnoredTickets st "add" "forever" ticketID).tempIgnored
        (manageIgnoredTickets st "add" "forever" ticketID).foreverIgnored).ignored.contains
      ticketID = true) ∧
    ((loadIgnoredTickets
        (manageIgnoredTickets st "add" "forever" ticketID).persisted).foreverIgnored.contains
      ticketID = true) ∧
    (∀ b, countBucket b (performTicketAnalysis allTasks issues cols
        (loadIgnoredTickets (manageIgnoredTickets st "add" "forever" ticketID).persisted).tempIgnored
        (loadIgnoredTickets (manageIgnoredTickets st "add" "forever" ticketID).persisted).foreverIgnored)
      ticketID = 0) ∧
    ((performTicketAnalysis allTasks issues cols
        (loadIgnoredTickets (manageIgnoredTickets st "add" "forever" ticketID).persisted).tempIgnored
        (loadIgnoredTickets (manageIgnoredTickets st "add" "forever" ticketID).persisted).foreverIgnored).ignored.contains
      ticketID = true) := by
  have hadd : manageIgnoredTickets st "add" "forever" ticketID =
      { tempIgnored := st.tempIgnored
        foreverIgnored := setInsert st.foreverIgnored ticketID
        persisted := setInsert st.foreverIgnored ticketID } := by
    simp [manageIgnoredTickets, saveIgnoredTickets]
  have hload : (loadIgnoredTickets (setInsert st.foreverIgnored ticketID)).foreverIgnored.contains
      ticketID = true := by
    unfold loadIgnoredTickets
    simp only
    rw [contains_foldl_setInsert, setInsert_contains]
    simp
  refine ⟨?_, ?_, ?_, ?_, ?_, ?_, ?_, ?_⟩
  · rw [hadd]
  · simp [manageIgnoredTickets, saveIgnoredTickets]
  · intro action ignoreType hne
    have hbeq : (ignoreType == "forever") = false := beq_eq_false_iff_ne.mpr hne
    by_cases ha : action = "add"
    · simp [manageIgnoredTickets, ha, hbeq]
    · by_cases hr : action = "remove" <;> simp [manageIgnoredTickets, ha, hr, hbeq]
  · intro b
    apply countBucket_zero_of_ignored
    rw [hadd]
    simp only [isIgnored, setInsert_contains, Bool.or_true]
  · rw [performTicketAnalysis_ignored, hadd]
    exact setInsert_contains st.foreverIgnored ticketID
  · rw [hadd]
    exact hload
  · intro b
    apply countBucket_zero_of_ignored
    rw [hadd]
    simp only [isIgnored]
    rw [hload]
    simp
  · rw [performTicketAnalysis_ignored, hadd]
    exact hload

/-- C9 witness: from an empty store, a temporary add leaves the persisted
list empty, while a permanent add of "S1" empties S1 out of the missing
bucket of a backlog analysis. -/
theorem C9_witness :
    (manageIgnoredTickets { tempIgnored := [], foreverIgnored := [], persisted := [] }
      "add" "temp" "S1").persisted = [] ∧
    countBucket SyncBucket.missingBucket (performTicketAnalysis [wTaskBacklog] [] ["backlog"]
      (manageIgnoredTickets { tempIgnored := [], foreverIgnored := [], persisted := [] }
        "add" "forever" "S1").tempIgnored
      (manageIgnoredTickets { tempIgnored := [], foreverIgnored := [], persisted := [] }
        "add" "forever" "S1").foreverIgnored) "S1" = 0 := by
  have h := C9_suppression_lifecycle
    { tempIgnored := [], foreverIgnored := [], persisted := [] } "S1" [wTaskBacklog] [] ["backlog"]
  exact ⟨h.2.2.1 "add" "temp" (by decide), h.2.2.2.1 SyncBucket.missingBucket⟩

/-- A list is a prefix of itself followed by anything. -/
theorem listIsPrefixOf_append_self (p t : List Char) : listIsPrefixOf p (p ++ t) = true := by
  induction p with
  | nil => rfl
  | cons a as ih => simp [listIsPrefixOf, ih]

/-- A pattern occurring as a prefix occurs as a segment. -/
theorem listContainsSeg_of_leading {s p : List Char} (h : listIsPrefixOf p s = true) :
    listContainsSeg s p = true := by
  cases s with
  | nil => exact h
  | cons c rest => simp [listContainsSeg, h]

/-- Occurrence is stable under prepending. -/
theorem listContainsSeg_append_left (a : List Char) {b p : List Char}
    (h : listContainsSeg b p = true) : listContainsSeg (a ++ b) p = true := by
  induction a with
  | nil => exact h
  | cons x xs ih => simp [listContainsSeg, ih]

/-- Decomposition of a non-occurrence at a cons cell. -/
theorem contains_cons_false {c : Char} {rest p : List Char}
    (h : listContainsSeg (c :: rest) p = false) :
    listIsPrefixOf p (c :: rest) = false ∧ listContainsSeg rest p = false := by
  have h2 := h
  unfold listContainsSeg at h2
  exact Bool.or_eq_false_iff.mp h2

/-- Appending a character absent from the pattern does not create a prefix. -/
theorem listIsPrefixOf_append_singleton {p : List Char} {c : Char} (hc : c ∉ p)
    (a : List Char) : listIsPrefixOf p (a ++ [c]) = listIsPrefixOf p a := by
  induction p generalizing a with
  | nil => rfl
  | cons q ps ih =>
    cases a with
    | nil =>
      have hq : (q == c) = false := by
        have : q ≠ c := fun h => hc (h ▸ List.mem_cons_self q ps)
        exact beq_eq_false_iff_ne.mpr this
      simp [listIsPrefixOf, hq]
    | cons x a2 =>
      have hc2 : c ∉ ps := fun h => hc (List.mem_cons_of_mem q h)
      simp [listIsPrefixOf, ih hc2]

/-- Appending a character absent from the pattern does not create an
occurrence. -/
theorem listContainsSeg_append_singleton {s p : List Char} {c : Char}
    (h : listContainsSeg s p = false) (hc : c ∉ p) :
    listContainsSeg (s ++ [c]) p = false := by
  induction s with
  | nil =>
    have h0 : listIsPrefixOf p [] = false := h
    have hp : listIsPrefixOf p [c] = false := by
      have h3 := listIsPrefixOf_append_singleton hc []
      rw [List.nil_append] at h3
      rw [h3]
      exact h0
    simp [listContainsSeg, hp, h0]
  | cons x xs ih =>
    rcases contains_cons_false h with ⟨h1, h2⟩
    have hp : listIsPrefixOf p (x :: (xs ++ [c])) = false := by
      have h3 := listIsPrefixOf_append_singleton hc (x :: xs)
      rw [List.cons_append] at h3
      rw [h3]
      exact h1
    rw [List.cons_append]
    simp [listContainsSeg, hp, ih h2]

/-- Containment of a single character is membership. -/
theorem listContainsSeg_single_eq_false {c : Char} {s : List Char} (h : c ∉ s) :
    listContainsSeg s [c] = false := by
  induction s with
  | nil => rfl
  | cons x xs ih =>
    have hx : (c == x) = false :=
      beq_eq_false_iff_ne.mpr (fun he => h (he ▸ List.mem_cons_self x xs))
    have hxs : c ∉ xs := fun h2 => h (List.mem_cons_of_mem x h2)
    simp [listContainsSeg, listIsPrefixOf, hx, ih hxs]

/-- Splitting a subject without any occurrence yields one segment. -/
theorem splitOnSegAux_not_contains {p s : List Char} (h : listContainsSeg s p = false)
    (acc : List Char) : splitOnSegAux p s 0 acc = [acc.reverse ++ s] := by
  induction s generalizing acc with
  | nil => simp [splitOnSegAux]
  | cons c rest ih =>
    rcases contains_cons_false h with ⟨h1, h2⟩
    simp only [splitOnSegAux, h1, Bool.false_eq_true, if_false]
    rw [ih h2]
    simp

/-- The skip counter consumes exactly the remaining separator characters. -/
theorem splitOnSegAux_skip (p : List Char) (d rest acc : List Char) :
    splitOnSegAux p (d ++ rest) d.length acc = splitOnSegAux p rest 0 acc := by
  induction d with
  | nil => simp
  | cons x xs ih =>
    rw [List.cons_append, List.length_cons]
    exact ih

/-- Splitting at an exact separator occurrence with no later occurrence. -/
theorem splitOnSegAux_boundary (q : Char) (qs rest acc : List Char)
    (hno : listContainsSeg rest (q :: qs) = false) :
    splitOnSegAux (q :: qs) ((q :: qs) ++ rest) 0 acc = [acc.reverse, rest] := by
  have hpre : listIsPrefixOf (q :: qs) ((q :: qs) ++ rest) = true :=
    listIsPrefixOf_append_self (q :: qs) rest
  rw [List.cons_append]
  rw [List.cons_append] at hpre
  simp only [splitOnSegAux, hpre, if_true, List.length_cons]
  have hlen : qs.length + 1 - 1 = qs.length := by omega
  rw [hlen, splitOnSegAux_skip (q :: qs) qs rest [], splitOnSegAux_not_contains hno]
  simp

/-- Walking over characters that can never start the separator only moves
them into the accumulator. -/
theorem splitOnSegAux_walk (q : Char) (qs : List Char) (a s acc : List Char)
    (ha : ∀ c ∈ a, (q == c) = false) :
    splitOnSegAux (q :: qs) (a ++ s) 0 acc =
      splitOnSegAux (q :: qs) s 0 (a.reverse ++ acc) := by
  induction a generalizing acc with
  | nil => simp
  | cons c a2 ih =>
    have hc : (q == c) = false := ha c (List.mem_cons_self c a2)
    have hp : listIsPrefixOf (q :: qs) (c :: (a2 ++ s)) = false := by
      simp [listIsPrefixOf, hc]
    rw [List.cons_append]
    simp only [splitOnSegAux, hp, Bool.false_eq_true, if_false]
    rw [ih _ (fun c2 hc2 => ha c2 (List.mem_cons_of_mem c hc2))]
    simp

/-- Single-character splitting distributes over an occurrence. -/
theorem splitOnSegAux_single (c : Char) (a b acc : List Char) :
    splitOnSegAux [c] (a ++ c :: b) 0 acc =
      splitOnSegAux [c] a 0 acc ++ splitOnSegAux [c] b 0 [] := by
  induction a generalizing acc with
  | nil =>
    have hp : listIsPrefixOf [c] (c :: b) = true := by simp [listIsPrefixOf]
    simp only [List.nil_append, splitOnSegAux, hp, if_true, List.length_cons,
      List.length_nil]
    rfl
  | cons x a2 ih =>
    by_cases hx : c = x
    · subst hx
      have hp1 : listIsPrefixOf [c] (c :: (a2 ++ c :: b)) = true := by simp [listIsPrefixOf]
      have hp2 : listIsPrefixOf [c] (c :: a2) = true := by simp [listIsPrefixOf]
      rw [List.cons_append]
      simp only [splitOnSegAux, hp1, hp2, if_true, List.length_cons, List.length_nil]
      rw [ih []]
      simp
    · have hx2 : (c == x) = false := beq_eq_false_iff_ne.mpr hx
      have hp1 : listIsPrefixOf [c] (x :: (a2 ++ c :: b)) = false := by
        simp [listIsPrefixOf, hx2]
      have hp2 : listIsPrefixOf [c] (x :: a2) = false := by simp [listIsPrefixOf, hx2]
      rw [List.cons_append]
      simp only [splitOnSegAux, hp1, hp2, Bool.false_eq_true, if_false]
      exact ih (x :: acc)

/-- Lines free of the marker are skipped by the extraction loop. -/
theorem extractFromLines_append_clean (lines rest : List String)
    (h : ∀ l ∈ lines, goContains l "Asana ID:" = false) :
    extractFromLines (lines ++ rest) = extractFromLines rest := by
  induction lines with
  | nil => rfl
  | cons l ls ih =>
    rw [List.cons_append]
    simp only [extractFromLines, h l (List.mem_cons_self l ls), Bool.false_eq_true, if_false]
    exact ih (fun x hx => h x (List.mem_cons_of_mem l hx))

/-- `toList` distributes over string append. -/
theorem toList_append (a b : String) : (a ++ b).toList = a.toList ++ b.toList := rfl

/-- `String.mk` of `toList` is the identity. -/
theorem mk_toList (s : String) : String.mk s.toList = s := rfl

/-- `goTrim` over a bracket cutset, phrased on character lists. -/
theorem goTrim_mk_bracket (l : List Char) :
    goTrim (String.mk l) "]" =
      String.mk ((trimLeftIn [']'] ((trimLeftIn [']'] l).reverse)).reverse) := rfl

theorem goTrimSpace_mk (l : List Char) :
    goTrimSpace (String.mk l) =
      String.mk ((trimLeftSpace ((trimLeftSpace l).reverse)).reverse) := rfl

theorem trim_marker_value (g : List Char)
    (hbr : g.getLast? ≠ some ']')
    (hws1 : ∀ c, g.head? = some c → isSpaceChar c = false)
    (hws2 : ∀ c, g.getLast? = some c → isSpaceChar c = false) :
    goTrimSpace (goTrim (String.mk (' ' :: (g ++ [']']))) "]") = String.mk g := by
  rcases g with _ | ⟨c0, g2⟩
  · decide
  · rcases hgr : (c0 :: g2).reverse with _ | ⟨cl, grt⟩
    · exact absurd hgr (by simp)
    · have hlast : (c0 :: g2).getLast? = some cl := by
        rw [← List.head?_reverse, hgr]
        rfl
      have hclne : cl ≠ ']' := by
        intro he
        exact hbr (by rw [hlast, he])
      have hcl2 : isSpaceChar cl = false := hws2 cl hlast
      have hc0 : isSpaceChar c0 = false := hws1 c0 rfl
      rw [goTrim_mk_bracket]
      have hstep1 : trimLeftIn [']'] (' ' :: ((c0 :: g2) ++ [']'])) =
          ' ' :: ((c0 :: g2) ++ [']']) := by
        simp [trimLeftIn]
      rw [hstep1]
      have hrev : (' ' :: ((c0 :: g2) ++ [']'])).reverse =
          ']' :: ((c0 :: g2).reverse ++ [' ']) := by
        simp
      rw [hrev, hgr]
      have hstep2 : trimLeftIn [']'] (']' :: (cl :: (grt ++ [' ']))) =
          cl :: (grt ++ [' ']) := by
        simp [trimLeftIn, hclne]
      rw [List.cons_append, hstep2]
      have hrev2 : (cl :: (grt ++ [' '])).reverse = ' ' :: ((cl :: grt).reverse) := by
        simp
      rw [hrev2, ← hgr, List.reverse_reverse]
      rw [goTrimSpace_mk]
      have hs1 : trimLeftSpace (' ' :: (c0 :: g2)) = c0 :: g2 := by
        have hsp : isSpaceChar ' ' = true := by decide
        simp [trimLeftSpace, hsp, hc0]
      rw [hs1, hgr]
      have hs2 : trimLeftSpace (cl :: grt) = cl :: grt := by
        simp [trimLeftSpace, hcl2]
      rw [hs2, ← hgr, List.reverse_reverse]

/-- C10 amended: the marker round-trip holds for every source record whose
body has no line containing "Asana ID:" and whose id contains no newline and
no "Asana ID:", does not end in "]", and has no leading or trailing
whitespace; extraction from the description written by the create and update
operations then returns exactly the record's id.  (The counterexample shows
the extra id conditions are necessary: an id ending in "]" is truncated.) -/
theorem C10_marker_roundtrip (task : AsanaTask)
    (hclean : ∀ line ∈ goSplit task.notes "\n", goContains line "Asana ID:" = false)
    (hnl : '\n' ∉ task.gid.toList)
    (hmark : goContains task.gid "Asana ID:" = false)
    (hbr : task.gid.toList.getLast? ≠ some ']')
    (hws1 : ∀ c, task.gid.toList.head? = some c → isSpaceChar c = false)
    (hws2 : ∀ c, task.gid.toList.getLast? = some c → isSpaceChar c = false) :
    ∀ issue : YouTrackIssue, issue.description = syncedDescription task →
      extractAsanaID issue = task.gid := by
  intro issue hdesc
  have hdecomp : issue.description.toList =
      task.notes.toList ++ ('\n' :: '\n' ::
        ("[Synced from ".toList ++
          ("Asana ID:".toList ++ (' ' :: (task.gid.toList ++ [']']))))) := by
    rw [hdesc]
    unfold syncedDescription
    rw [toList_append, toList_append, toList_append]
    rw [show ("\n\n[Synced from Asana ID: ".toList) = '\n' :: '\n' ::
      ("[Synced from ".toList ++ ("Asana ID:".toList ++ [' '])) from by decide]
    rw [show ("]".toList) = [']'] from rfl]
    simp [List.append_assoc]
  have hsepcons : "Asana ID:".toList = 'A' :: "sana ID:".toList := rfl
  have hmarkL : listContainsSeg task.gid.toList "Asana ID:".toList = false := hmark
  have hnoB : listContainsSeg (' ' :: (task.gid.toList ++ [']']))
      "Asana ID:".toList = false := by
    have h1 : listIsPrefixOf "Asana ID:".toList
        (' ' :: (task.gid.toList ++ [']'])) = false := by
      rw [hsepcons]
      have hAsp : ('A' == ' ') = false := by decide
      simp [listIsPrefixOf, hAsp]
    have h2 : listContainsSeg (task.gid.toList ++ [']']) "Asana ID:".toList = false :=
      listContainsSeg_append_singleton hmarkL (by decide)
    have e1 : listContainsSeg (' ' :: (task.gid.toList ++ [']'])) "Asana ID:".toList =
        (listIsPrefixOf "Asana ID:".toList (' ' :: (task.gid.toList ++ [']'])) ||
         listContainsSeg (task.gid.toList ++ [']']) "Asana ID:".toList) := rfl
    rw [e1, h1, h2]
    rfl
  have hmc : listContainsSeg
      ("[Synced from ".toList ++
        ("Asana ID:".toList ++ (' ' :: (task.gid.toList ++ [']']))))
      "Asana ID:".toList = true :=
    listContainsSeg_append_left _
      (listContainsSeg_of_leading (listIsPrefixOf_append_self _ _))
  have hdc : goContains issue.description "Asana ID:" = true := by
    show listContainsSeg issue.description.toList "Asana ID:".toList = true
    rw [hdecomp]
    apply listContainsSeg_append_left
    show listContainsSeg (['\n', '\n'] ++
      ("[Synced from ".toList ++
        ("Asana ID:".toList ++ (' ' :: (task.gid.toList ++ [']'])))))
      "Asana ID:".toList = true
    exact listContainsSeg_append_left _ hmc
  have hnlM : listContainsSeg
      ("[Synced from ".toList ++
        ("Asana ID:".toList ++ (' ' :: (task.gid.toList ++ [']'])))) ['\n'] = false := by
    apply listContainsSeg_single_eq_false
    intro hmem
    simp only [List.mem_append, List.mem_cons] at hmem
    rcases hmem with h | h | h | h
    · exact absurd h (by decide)
    · exact absurd h (by decide)
    · exact absurd h (by decide)
    · rcases h with h | h
      · exact hnl h
      · exact absurd h (by decide)
  have hsplitD : goSplit issue.description "\n" =
      goSplit task.notes "\n" ++
        ["", String.mk ("[Synced from ".toList ++
          ("Asana ID:".toList ++ (' ' :: (task.gid.toList ++ [']']))))] := by
    unfold goSplit
    rw [show ("\n".toList) = ['\n'] from rfl, hdecomp]
    rw [splitOnSegAux_single]
    rw [show ('\n' :: ("[Synced from ".toList ++
        ("Asana ID:".toList ++ (' ' :: (task.gid.toList ++ [']']))))) =
      [] ++ '\n' :: ("[Synced from ".toList ++
        ("Asana ID:".toList ++ (' ' :: (task.gid.toList ++ [']'])))) from rfl]
    rw [splitOnSegAux_single]
    rw [splitOnSegAux_not_contains hnlM]
    simp [splitOnSegAux]
  have hnoBc : listContainsSeg (' ' :: (task.gid.toList ++ [']']))
      ('A' :: "sana ID:".toList) = false := by
    rw [← hsepcons]
    exact hnoB
  have hsplitML : splitOnSegAux ('A' :: "sana ID:".toList)
      ("[Synced from ".toList ++
        (('A' :: "sana ID:".toList) ++ (' ' :: (task.gid.toList ++ [']'])))) 0 [] =
      ["[Synced from ".toList, ' ' :: (task.gid.toList ++ [']'])] := by
    rw [splitOnSegAux_walk 'A' ("sana ID:".toList) ("[Synced from ".toList) _ []
      (by decide)]
    rw [splitOnSegAux_boundary 'A' ("sana ID:".toList) _ _ hnoBc]
    simp
  have hsplitM : goSplit (String.mk ("[Synced from ".toList ++
      ("Asana ID:".toList ++ (' ' :: (task.gid.toList ++ [']']))))) "Asana ID:" =
      ["[Synced from ", String.mk (' ' :: (task.gid.toList ++ [']']))] := by
    show (splitOnSegAux "Asana ID:".toList
        ("[Synced from ".toList ++
          ("Asana ID:".toList ++ (' ' :: (task.gid.toList ++ [']'])))) 0 []).map String.mk =
      ["[Synced from ", String.mk (' ' :: (task.gid.toList ++ [']']))]
    rw [hsepcons, hsplitML]
    rw [List.map_cons, List.map_cons, List.map_nil]
    rfl
  have hmcS : goContains (String.mk ("[Synced from ".toList ++
      ("Asana ID:".toList ++ (' ' :: (task.gid.toList ++ [']']))))) "Asana ID:" = true := hmc
  have hempty : goContains "" "Asana ID:" = false := by decide
  unfold extractAsanaID
  rw [hdc]
  simp only [if_true]
  rw [hsplitD, extractFromLines_append_clean _ _ hclean]
  simp only [extractFromLines, hempty, Bool.false_eq_true, if_false, hmcS, if_true, hsplitM]
  rw [trim_marker_value task.gid.toList hbr hws1 hws2, mk_toList]

/-- C10 witness: a record with a clean body and a well-formed id
round-trips through the marker. -/
theorem C10_witness : extractAsanaID w10Issue = wTaskBacklog.gid := by
  apply C10_marker_roundtrip wTaskBacklog (by decide) (by decide) (by decide) (by decide)
  · intro c hc
    have h3 : some 'S' = some c := hc
    rw [← Option.some.inj h3]
    decide
  · intro c hc
    have h3 : some '1' = some c := hc
    rw [← Option.some.inj h3]
    decide
  · rfl
